import Mathlib

/-!
# Plunder: action plan for the etcd certificates and the deployment registry

A shallow embedding of `pkg/parlay/kubeadm.go` and `pkg/server/templateUtils.go`.
Go strings are Lean strings, `fmt.Sprintf` with `%s` verbs is string
concatenation, a Go slice is a list, and package-level variables are fields of
an explicit state record. Logging calls have no effect on any value and are
left out.
-/

set_option autoImplicit false

namespace Plunder

/-! ## pkg/parlay/kubeadm.go -/

/-- Modelled from the spec: the `Action` struct is declared in a file of the
package that is not among the sources; it carries the attributes the spec
lists (kind, command text, privilege-escalation user, display name, source and
destination path), which are the fields `kubeadm.go` assigns. The default of
every field is the Go zero value. -/
structure Action where
  ActionType : String := ""
  Command : String := ""
  CommandSudo : String := ""
  Name : String := ""
  Source : String := ""
  Destination : String := ""
deriving DecidableEq, Repr

/-- The struct `etcdMembers`. -/
structure etcdMembers where
  Hostname1 : String := ""
  Hostname2 : String := ""
  Hostname3 : String := ""
  Address1 : String := ""
  Address2 : String := ""
  Address3 : String := ""
  InitCA : Bool := false
  APIVersion : String := ""
deriving DecidableEq, Repr

/-- The method `buildKubeadm`: the constant `etcdKubeadm` with its fourteen
`%s` verbs filled, in order, with `api, address, address, Hostname1, Address1,
Hostname2, Address2, Hostname3, Address3, host, address, address, address,
address`. -/
def buildKubeadm (e : etcdMembers) (api host address : String) : String :=
  "apiVersion: \"kubeadm.k8s.io/" ++ api ++ "\"\n" ++
  "kind: ClusterConfiguration\n" ++
  "etcd:\n" ++
  "    local:\n" ++
  "        serverCertSANs:\n" ++
  "        - \"" ++ address ++ "\"\n" ++
  "        peerCertSANs:\n" ++
  "        - \"" ++ address ++ "\"\n" ++
  "        extraArgs:\n" ++
  "            initial-cluster: " ++ e.Hostname1 ++ "=https://" ++ e.Address1 ++ ":2380,"
    ++ e.Hostname2 ++ "=https://" ++ e.Address2 ++ ":2380,"
    ++ e.Hostname3 ++ "=https://" ++ e.Address3 ++ ":2380\n" ++
  "            initial-cluster-state: new\n" ++
  "            name: " ++ host ++ "\n" ++
  "            listen-peer-urls: https://" ++ address ++ ":2380\n" ++
  "            listen-client-urls: https://" ++ address ++ ":2379\n" ++
  "            advertise-client-urls: https://" ++ address ++ ":2379\n" ++
  "            initial-advertise-peer-urls: https://" ++ address ++ ":2380"

/-- The body of the loop of `generateCertificateActions` for the element `v`
at index `i` of a slice of length `len`: the actions that one iteration
appends. The variable `a` is declared afresh in every iteration and then
mutated field by field, so the later actions keep the fields set earlier. -/
def certificateLoopBody (len : Nat) (i : Nat) (v : String) : List Action :=
  let a : Action :=
    { ActionType := "command"
      Command := "find /etc/kubernetes/pki -not -name ca.crt -not -name ca.key -type f -delete"
      CommandSudo := "root"
      Name := "Remove any existing certificates before attempting to generate any new ones" }
  let generatedActions : List Action := [a]
  let a := { a with ActionType := "command" }
  let a := { a with Command := "kubeadm init phase certs etcd-server --config=/tmp/" ++ v ++ "/kubeadmcfg.yaml" }
  let a := { a with Name := "Generate etcd server certificate for [" ++ v ++ "]" }
  let generatedActions := generatedActions ++ [a]
  let a := { a with Command := "kubeadm init phase certs etcd-peer --config=/tmp/" ++ v ++ "/kubeadmcfg.yaml" }
  let a := { a with Name := "Generate peer certificate for [" ++ v ++ "]" }
  let generatedActions := generatedActions ++ [a]
  let a := { a with Command := "kubeadm init phase certs etcd-healthcheck-client --config=/tmp/" ++ v ++ "/kubeadmcfg.yaml" }
  let a := { a with Name := "Generate health check certificate for [" ++ v ++ "]" }
  let generatedActions := generatedActions ++ [a]
  let a := { a with Command := "kubeadm init phase certs apiserver-etcd-client --config=/tmp/" ++ v ++ "/kubeadmcfg.yaml" }
  let a := { a with Name := "Generate api-server client certificate for [" ++ v ++ "]" }
  let generatedActions := generatedActions ++ [a]
  if (i : Int) ≠ (len : Int) - 1 then
    let a := { a with Command := "tar -cvzf /tmp/" ++ v ++ ".tar.gz $(find /etc/kubernetes/pki -not -name ca.crt -not -name ca.key -type f) /tmp/" ++ v ++ "/kubeadmcfg.yaml" }
    let a := { a with Name := "Archive generated certificates [" ++ v ++ "]" }
    let generatedActions := generatedActions ++ [a]
    let a := { a with ActionType := "download" }
    let a := { a with Source := "/tmp/" ++ v ++ ".tar.gz" }
    let a := { a with Destination := "/tmp/" ++ v ++ ".tar.gz" }
    let a := { a with Name := "Retrieve the certificate bundle for [" ++ v ++ "]" }
    generatedActions ++ [a]
  else
    generatedActions

/-- The loop `for i, v := range hosts` of `generateCertificateActions`, from
index `i` on, over the remaining elements; `len` is `len(hosts)`. -/
def certificateLoop (len : Nat) : Nat → List String → List Action
  | _, [] => []
  | i, v :: rest => certificateLoopBody len i v ++ certificateLoop len (i + 1) rest

/-- The method `generateCertificateActions`. It reads no field of its
receiver. `hosts[i]` inside the loop is the element `v` of the iteration. -/
def generateCertificateActions (_e : etcdMembers) (hosts : List String) : List Action :=
  certificateLoop hosts.length 0 hosts

/-- The method `generateActions`. The receiver is a pointer and the method
stores the defaulted API version in it, so the embedding returns the receiver
after the call together with the returned slice. The action built under
`InitCA` is a variable of the inner block; the outer `a` starts as the zero
`Action` and is mutated from one append to the next. -/
def generateActions (e : etcdMembers) : etcdMembers × List Action :=
  let generatedActions : List Action := []
  let a : Action := {}
  let generatedActions :=
    if e.InitCA = true then
      generatedActions ++
        [{ ActionType := "command"
           Command := "kubeadm init phase certs etcd-ca"
           CommandSudo := "root"
           Name := "Initialise Certificate Authority" }]
    else generatedActions
  let e := if e.APIVersion = "" then { e with APIVersion := "v1beta1" } else e
  let a := { a with ActionType := "command" }
  let a := { a with Command := "mkdir -p /tmp/" ++ e.Address1 ++ "/ /tmp/" ++ e.Address2 ++ "/ /tmp/" ++ e.Address3 ++ "/" }
  let a := { a with Name := "Generate temporary directories" }
  let generatedActions := generatedActions ++ [a]
  let a := { a with Name := "build kubeadm config for node 0" }
  let a := { a with Command := "echo '" ++ buildKubeadm e e.APIVersion e.Hostname1 e.Address1 ++ "' > /tmp/" ++ e.Address1 ++ "/kubeadmcfg.yaml" }
  let generatedActions := generatedActions ++ [a]
  let a := { a with Name := "build kubeadm config for node 1" }
  let a := { a with Command := "echo '" ++ buildKubeadm e e.APIVersion e.Hostname2 e.Address2 ++ "' > /tmp/" ++ e.Address2 ++ "/kubeadmcfg.yaml" }
  let generatedActions := generatedActions ++ [a]
  let a := { a with Command := "echo '" ++ buildKubeadm e e.APIVersion e.Hostname3 e.Address3 ++ "' > /tmp/" ++ e.Address3 ++ "/kubeadmcfg.yaml" }
  let generatedActions := generatedActions ++ [a]
  (e, generatedActions ++ generateCertificateActions e [e.Address3, e.Address2, e.Address1])

/-! ## pkg/server/templateUtils.go -/

/-- Modelled from the spec: the struct `HostConfig` is declared in a file of
the package that is not among the sources. It carries the fields of the
spec's host profile, which are the ten fields that `PopulateConfiguration`
reads and writes: network (gateway, subnet, name server, adapter), repository
(address, mirror directory), credentials (username, password, SSH key path)
and the package selection. -/
structure HostConfig where
  Gateway : String := ""
  Subnet : String := ""
  NameServer : String := ""
  Adapter : String := ""
  RepositoryAddress : String := ""
  MirrorDirectory : String := ""
  Username : String := ""
  Password : String := ""
  SSHKeyPath : String := ""
  Packages : String := ""
deriving DecidableEq, Repr

/-- Modelled from the spec: the struct `BootConfig`, declared outside the
sources: a named boot configuration with kernel path, initrd path and boot
command line, the fields `UpdateControllerConfig` reads. -/
structure BootConfig where
  ConfigName : String := ""
  Kernel : String := ""
  Initrd : String := ""
  Cmdline : String := ""
deriving DecidableEq, Repr

/-- Modelled from the spec: the struct `DeploymentConfig`, declared outside
the sources: one entry of the manifest, pairing a hardware address with a
named boot configuration, the boot configuration it resolves to and a host
profile. -/
structure DeploymentConfig where
  MAC : String := ""
  ConfigName : String := ""
  ConfigBoot : BootConfig := {}
  ConfigHost : HostConfig := {}
deriving DecidableEq, Repr

/-- Modelled from the spec: the struct `DeploymentConfigurationFile`, declared
outside the sources: the global default host profile and the ordered entries. -/
structure DeploymentConfigurationFile where
  GlobalServerConfig : HostConfig := {}
  Configs : List DeploymentConfig := []
deriving DecidableEq, Repr

/-- Modelled from the spec: the functions that `templateUtils.go` calls and
that are defined outside the sources. `findBootConfigForDeployment` returns a
pointer that may be nil; the `IPXE...` functions of `pkg/utils` and the
`Build...` methods of `HostConfig` are the renderers, of which the spec gives
the contract only (inputs to text); `Unmarshal` is `json.Unmarshal` into a
zero `DeploymentConfigurationFile` and `ToLower` is `strings.ToLower`, both of
the Go library. -/
structure Externals where
  Unmarshal : ByteArray → Except String DeploymentConfigurationFile
  findBootConfigForDeployment : DeploymentConfig → Option BootConfig
  IPXEPreeseed : String → String → String → String → String
  IPXEKickstart : String → String → String → String → String
  IPXEVSphere : String → String → String → String
  IPXEAnyBoot : String → String → String → String → String
  BuildPreeSeedConfig : HostConfig → String
  BuildKickStartConfig : HostConfig → String
  BuildESXiConfig : HostConfig → String
  BuildESXiKickStart : HostConfig → String
  ToLower : String → String

/-- The package-level variables the functions read and write: `AnyBoot`,
`Deployments`, `httpAddress`, the map `httpPaths` (a key that is absent maps
to `none`) and the patterns registered in the default mux of `net/http`, in
the order of their registration. -/
structure ServerState where
  AnyBoot : Bool := false
  Deployments : DeploymentConfigurationFile := {}
  httpAddress : String := ""
  httpPaths : String → Option String := fun _ => none
  handlers : List String := []

/-- How a call ends: it returns its `error` result (`none` is `nil`), or it
panics. -/
inductive Outcome where
  | returned (err : Option String)
  | panicked (msg : String)
deriving DecidableEq, Repr

/-- The call `strings.Replace(mac, ":", "-", -1)`: every colon becomes a
dash, every other character stays. -/
def dashMac (mac : String) : String :=
  String.mk (mac.data.map (fun c => if c = ':' then '-' else c))

/-- The call `http.HandleFunc(pattern, rootHandler)`: the default mux panics
on an empty pattern and on a pattern that is already registered, and
otherwise registers it. -/
def HandleFunc (s : ServerState) (pattern : String) : Except String ServerState :=
  if pattern = "" then .error "http: invalid pattern"
  else if pattern ∈ s.handlers then .error ("http: multiple registrations for " ++ pattern)
  else .ok { s with handlers := s.handlers ++ [pattern] }

/-- One of the three publication blocks at the end of the loop body: when
`text` is not empty, register `path` and then store `content` under it. -/
def publish (s : ServerState) (text path content : String) : Except String ServerState :=
  if text ≠ "" then
    match HandleFunc s path with
    | .error msg => .error msg
    | .ok s1 => .ok { s1 with httpPaths := fun p => if p = path then some content else s1.httpPaths p }
  else .ok s

/-- The method `PopulateConfiguration`; the receiver is a pointer, so the
embedding returns the receiver after the call. -/
def PopulateConfiguration (config globalConfig : HostConfig) : HostConfig :=
  let config := if config.Gateway = "" then { config with Gateway := globalConfig.Gateway } else config
  let config := if config.Subnet = "" then { config with Subnet := globalConfig.Subnet } else config
  let config := if config.NameServer = "" then { config with NameServer := globalConfig.NameServer } else config
  let config := if config.Adapter = "" then { config with Adapter := globalConfig.Adapter } else config
  let config := if config.RepositoryAddress = "" then { config with RepositoryAddress := globalConfig.RepositoryAddress } else config
  let config := if config.MirrorDirectory = "" then { config with MirrorDirectory := globalConfig.MirrorDirectory } else config
  let config := if config.Username = "" then { config with Username := globalConfig.Username } else config
  let config := if config.Password = "" then { config with Password := globalConfig.Password } else config
  let config := if config.SSHKeyPath = "" then { config with SSHKeyPath := globalConfig.SSHKeyPath } else config
  let config := if config.Packages = "" then { config with Packages := globalConfig.Packages } else config
  config

/-- The `switch` on the config name of an entry whose host profile is already
populated: the boot-loader script, the installer text and the ESXi kickstart
text, the last two empty where the case does not assign them. -/
def renderEntry (x : Externals) (httpAddress : String) (bootConfig : BootConfig)
    (c : DeploymentConfig) : String × String × String :=
  if c.ConfigName = "preseed" then
    (x.IPXEPreeseed httpAddress bootConfig.Kernel bootConfig.Initrd bootConfig.Cmdline,
      x.BuildPreeSeedConfig c.ConfigHost, "")
  else if c.ConfigName = "kickstart" then
    (x.IPXEKickstart httpAddress bootConfig.Kernel bootConfig.Initrd bootConfig.Cmdline,
      x.BuildKickStartConfig c.ConfigHost, "")
  else if c.ConfigName = "vsphere" then
    (x.IPXEVSphere httpAddress bootConfig.Kernel bootConfig.Cmdline,
      x.BuildESXiConfig c.ConfigHost, x.BuildESXiKickStart c.ConfigHost)
  else
    (x.IPXEAnyBoot httpAddress bootConfig.Kernel bootConfig.Initrd bootConfig.Cmdline, "", "")

/-- The three publication blocks of the loop body, in order. The third one
tests the ESXi kickstart text and stores `inMemBootConfig`, as the source
does. The state reached is returned also when a registration panics. -/
def publishEntry (s : ServerState) (mac inMemipxeConfig inMemBootConfig imMemESXiKickstart : String) :
    ServerState × Option String :=
  match publish s inMemipxeConfig ("/" ++ dashMac mac ++ ".ipxe") inMemipxeConfig with
  | .error msg => (s, some msg)
  | .ok s1 =>
    match publish s1 inMemBootConfig ("/" ++ dashMac mac ++ ".cfg") inMemBootConfig with
    | .error msg => (s1, some msg)
    | .ok s2 =>
      match publish s2 imMemESXiKickstart ("/" ++ dashMac mac ++ ".ks") inMemBootConfig with
      | .error msg => (s2, some msg)
      | .ok s3 => (s3, none)

/-- The body of the loop of `UpdateControllerConfig` for the entry `c`: the
state after the iteration, and either the entry as the iteration leaves it in
`updateConfig.Configs[i]`, or the way the call ends inside the iteration. -/
def updateEntry (x : Externals) (globalConfig : HostConfig) (s : ServerState)
    (c : DeploymentConfig) : ServerState × Except Outcome DeploymentConfig :=
  match x.findBootConfigForDeployment c with
  | none =>
    (s, .error (.returned (some
      ("Host [" ++ c.MAC ++ "] uses unknown config [" ++ c.ConfigName ++ "], stopping config update"))))
  | some bootConfig =>
    let c := { c with ConfigBoot := bootConfig }
    let c := { c with ConfigHost := PopulateConfiguration c.ConfigHost globalConfig }
    let r := renderEntry x s.httpAddress bootConfig c
    match publishEntry s c.MAC r.1 r.2.1 r.2.2 with
    | (s1, some msg) => (s1, .error (.panicked msg))
    | (s1, none) => (s1, .ok c)

/-- The loop `for i := range updateConfig.Configs` over the remaining
entries: the state after the loop and the entries as the loop leaves them, or
the way the call ends inside the loop. -/
def updateLoop (x : Externals) (globalConfig : HostConfig) :
    ServerState → List DeploymentConfig → ServerState × Except Outcome (List DeploymentConfig)
  | s, [] => (s, .ok [])
  | s, c :: rest =>
    match updateEntry x globalConfig s c with
    | (s1, .error out) => (s1, .error out)
    | (s1, .ok c1) =>
      match updateLoop x globalConfig s1 rest with
      | (s2, .error out) => (s2, .error out)
      | (s2, .ok rest1) => (s2, .ok (c1 :: rest1))

/-- The function `UpdateControllerConfig`: the state after the call and the
way the call ends. -/
def UpdateControllerConfig (x : Externals) (s : ServerState) (configFile : ByteArray) :
    ServerState × Outcome :=
  match x.Unmarshal configFile with
  | .error err => (s, .returned (some err))
  | .ok updateConfig =>
    match updateLoop x updateConfig.GlobalServerConfig s updateConfig.Configs with
    | (s1, .error out) => (s1, out)
    | (s1, .ok configs) =>
      if configs.length = 0 then (s1, .returned none)
      else ({ s1 with Deployments := { updateConfig with Configs := configs } }, .returned none)

/-- The loop of `FindDeployment` over the remaining entries, and the final
`return ""`. -/
def findDeploymentLoop (x : Externals) (mac : String) : List DeploymentConfig → String
  | [] => ""
  | c :: rest => if mac = x.ToLower c.MAC then c.ConfigName else findDeploymentLoop x mac rest

/-- The function `FindDeployment`. -/
def FindDeployment (x : Externals) (s : ServerState) (mac : String) : String :=
  if s.AnyBoot = true then "anyboot"
  else if s.Deployments.Configs.length = 0 then ""
  else findDeploymentLoop x mac s.Deployments.Configs

/-! ## Auxiliary notions for the proofs -/

/-- The three paths under which the loop body may publish for a MAC. -/
def artifactPaths (mac : String) : List String :=
  ["/" ++ dashMac mac ++ ".ipxe", "/" ++ dashMac mac ++ ".cfg", "/" ++ dashMac mac ++ ".ks"]

/-- The states `s` and `t` agree on everything except, possibly, the content
and the registration of the paths that satisfy `touched`. -/
def AgreeOutside (touched : String → Prop) (s t : ServerState) : Prop :=
  t.AnyBoot = s.AnyBoot ∧ t.Deployments = s.Deployments ∧ t.httpAddress = s.httpAddress ∧
  ∀ p, ¬ touched p → t.httpPaths p = s.httpPaths p ∧ (p ∈ t.handlers ↔ p ∈ s.handlers)

/-- The entry `c` as the loop body leaves it once `bootConfig` is found. -/
def resolvedEntry (globalConfig : HostConfig) (c : DeploymentConfig) (bootConfig : BootConfig) :
    DeploymentConfig :=
  { c with ConfigBoot := bootConfig, ConfigHost := PopulateConfiguration c.ConfigHost globalConfig }

/-! ## Concrete inputs -/

/-- A controller with the boot configurations `preseed` and `vsphere`, a
decoder that yields the manifest `m`, renderers that return short non-empty
texts, and the lower-casing of the ASCII letters, with which
`strings.ToLower` agrees on ASCII strings. -/
def sampleExternals (m : DeploymentConfigurationFile) : Externals where
  Unmarshal := fun _ => .ok m
  findBootConfigForDeployment := fun c =>
    if c.ConfigName = "preseed" then
      some { ConfigName := "preseed", Kernel := "k", Initrd := "i", Cmdline := "c" }
    else if c.ConfigName = "vsphere" then
      some { ConfigName := "vsphere", Kernel := "m", Initrd := "", Cmdline := "b" }
    else none
  IPXEPreeseed := fun a k i c => "preseed " ++ a ++ k ++ i ++ c
  IPXEKickstart := fun a k i c => "kickstart " ++ a ++ k ++ i ++ c
  IPXEVSphere := fun a k c => "vsphere " ++ a ++ k ++ c
  IPXEAnyBoot := fun a k i c => "anyboot " ++ a ++ k ++ i ++ c
  BuildPreeSeedConfig := fun h => "d-i " ++ h.Gateway
  BuildKickStartConfig := fun h => "ks " ++ h.Gateway
  BuildESXiConfig := fun h => "esxi " ++ h.Gateway
  BuildESXiKickStart := fun h => "esxiks " ++ h.Gateway
  ToLower := fun t => String.mk (t.data.map Char.toLower)

/-- An entry for `aa:bb:cc:dd:ee:ff` with the config name `preseed`. -/
def entryPreseed : DeploymentConfig :=
  { MAC := "aa:bb:cc:dd:ee:ff", ConfigName := "preseed" }

/-- An entry for the same MAC `aa:bb:cc:dd:ee:ff` with the config name `vsphere`. -/
def entryVsphere : DeploymentConfig :=
  { MAC := "aa:bb:cc:dd:ee:ff", ConfigName := "vsphere" }

/-- An entry for the MAC `aa:bb:cc:dd:ee:ff` with the operator-defined config
name `custom`. -/
def entryCustom : DeploymentConfig :=
  { MAC := "aa:bb:cc:dd:ee:ff", ConfigName := "custom" }

/-- The sample controller with one more boot configuration, named `custom`. -/
def sampleExternalsCustom (m : DeploymentConfigurationFile) : Externals :=
  { sampleExternals m with
    findBootConfigForDeployment := fun c =>
      if c.ConfigName = "custom" then
        some { ConfigName := "custom", Kernel := "k", Initrd := "i", Cmdline := "c" }
      else (sampleExternals m).findBootConfigForDeployment c }

/-- The download action of the plan for an address that is the empty string. -/
def downloadForEmptyAddress : Action :=
  { ActionType := "download", CommandSudo := "root",
    Command := "tar -cvzf /tmp/.tar.gz $(find /etc/kubernetes/pki -not -name ca.crt -not -name ca.key -type f) /tmp//kubeadmcfg.yaml",
    Source := "/tmp/.tar.gz", Destination := "/tmp/.tar.gz",
    Name := "Retrieve the certificate bundle for []" }

/-- An entry registered under the upper-case MAC `AA:BB:CC:DD:EE:FF` with the
config name `preseed`. -/
def entryUpperCase : DeploymentConfig :=
  { MAC := "AA:BB:CC:DD:EE:FF", ConfigName := "preseed" }

/-- An entry whose config name no boot configuration carries. -/
def entryUnknown : DeploymentConfig :=
  { MAC := "00:11:22:33:44:55", ConfigName := "nosuch" }

/-! ## Theorems: the certificate plan -/

/-- The template reads the hostnames and addresses of its receiver only. -/
theorem buildKubeadm_congr (e e1 : etcdMembers) (api host address : String)
    (h1 : e1.Hostname1 = e.Hostname1) (h2 : e1.Hostname2 = e.Hostname2)
    (h3 : e1.Hostname3 = e.Hostname3) (a1 : e1.Address1 = e.Address1)
    (a2 : e1.Address2 = e.Address2) (a3 : e1.Address3 = e.Address3) :
    buildKubeadm e1 api host address = buildKubeadm e api host address := by
  simp only [buildKubeadm, h1, h2, h3, a1, a2, a3]

/-- The slice `generateActions` returns, with the loop over the three
addresses unrolled and the defaulted API version made explicit. -/
theorem generateActions_unfold (e : etcdMembers) :
    (generateActions e).2 =
      (if e.InitCA = true then
        [({ ActionType := "command", Command := "kubeadm init phase certs etcd-ca",
            CommandSudo := "root", Name := "Initialise Certificate Authority" } : Action)]
       else []) ++
      ([({ ActionType := "command", Name := "Generate temporary directories",
           Command := "mkdir -p /tmp/" ++ e.Address1 ++ "/ /tmp/" ++ e.Address2 ++ "/ /tmp/" ++ e.Address3 ++ "/" } : Action),
        { ActionType := "command", Name := "build kubeadm config for node 0",
          Command := "echo '" ++ buildKubeadm e (if e.APIVersion = "" then "v1beta1" else e.APIVersion) e.Hostname1 e.Address1 ++ "' > /tmp/" ++ e.Address1 ++ "/kubeadmcfg.yaml" },
        { ActionType := "command", Name := "build kubeadm config for node 1",
          Command := "echo '" ++ buildKubeadm e (if e.APIVersion = "" then "v1beta1" else e.APIVersion) e.Hostname2 e.Address2 ++ "' > /tmp/" ++ e.Address2 ++ "/kubeadmcfg.yaml" },
        { ActionType := "command", Name := "build kubeadm config for node 1",
          Command := "echo '" ++ buildKubeadm e (if e.APIVersion = "" then "v1beta1" else e.APIVersion) e.Hostname3 e.Address3 ++ "' > /tmp/" ++ e.Address3 ++ "/kubeadmcfg.yaml" }]
       ++ (certificateLoopBody 3 0 e.Address3 ++ (certificateLoopBody 3 1 e.Address2
       ++ certificateLoopBody 3 2 e.Address1))) := by
  by_cases h : e.APIVersion = ""
  · simp only [generateActions, h, if_true, generateCertificateActions, certificateLoop,
      List.length_cons, List.length_nil, List.append_nil, List.nil_append, List.append_assoc]
    rw [buildKubeadm_congr e _ _ _ _ rfl rfl rfl rfl rfl rfl,
      buildKubeadm_congr e _ _ _ _ rfl rfl rfl rfl rfl rfl,
      buildKubeadm_congr e _ _ _ _ rfl rfl rfl rfl rfl rfl]
    rfl
  · simp only [generateActions, h, if_false, generateCertificateActions, certificateLoop,
      List.length_cons, List.length_nil, List.append_nil, List.nil_append, List.append_assoc]
    rfl

/-- C1: with `InitCA = false`, hostnames `h1 h2 h3` and addresses `a1 a2 a3`,
`generateActions` returns exactly 23 actions in this order: the mkdir command;
the three config-write commands redirecting to `/tmp/a1`, `/tmp/a2`, `/tmp/a3`;
for `a3` and then `a2` the cleanup, the four certificate commands, the archive
and the download; for `a1` the cleanup and the four certificate commands only. -/
theorem generateActions_plan_without_ca (h1 h2 h3 a1 a2 a3 api : String) :
    let e : etcdMembers :=
      { Hostname1 := h1, Hostname2 := h2, Hostname3 := h3,
        Address1 := a1, Address2 := a2, Address3 := a3,
        InitCA := false, APIVersion := api }
    let version := if api = "" then "v1beta1" else api
    let write := fun (name host v : String) =>
      ({ ActionType := "command", Name := name,
         Command := "echo '" ++ buildKubeadm e version host v ++ "' > /tmp/" ++ v ++ "/kubeadmcfg.yaml" } : Action)
    let cleanup : Action :=
      { ActionType := "command", CommandSudo := "root",
        Command := "find /etc/kubernetes/pki -not -name ca.crt -not -name ca.key -type f -delete",
        Name := "Remove any existing certificates before attempting to generate any new ones" }
    let cert := fun (command name : String) =>
      ({ ActionType := "command", CommandSudo := "root", Command := command, Name := name } : Action)
    let tar := fun (v : String) =>
      "tar -cvzf /tmp/" ++ v ++ ".tar.gz $(find /etc/kubernetes/pki -not -name ca.crt -not -name ca.key -type f) /tmp/" ++ v ++ "/kubeadmcfg.yaml"
    let archive := fun (v : String) =>
      ({ ActionType := "command", CommandSudo := "root", Command := tar v,
         Name := "Archive generated certificates [" ++ v ++ "]" } : Action)
    let download := fun (v : String) =>
      ({ ActionType := "download", CommandSudo := "root", Command := tar v,
         Source := "/tmp/" ++ v ++ ".tar.gz", Destination := "/tmp/" ++ v ++ ".tar.gz",
         Name := "Retrieve the certificate bundle for [" ++ v ++ "]" } : Action)
    let certs := fun (v : String) =>
      [cleanup,
       cert ("kubeadm init phase certs etcd-server --config=/tmp/" ++ v ++ "/kubeadmcfg.yaml")
         ("Generate etcd server certificate for [" ++ v ++ "]"),
       cert ("kubeadm init phase certs etcd-peer --config=/tmp/" ++ v ++ "/kubeadmcfg.yaml")
         ("Generate peer certificate for [" ++ v ++ "]"),
       cert ("kubeadm init phase certs etcd-healthcheck-client --config=/tmp/" ++ v ++ "/kubeadmcfg.yaml")
         ("Generate health check certificate for [" ++ v ++ "]"),
       cert ("kubeadm init phase certs apiserver-etcd-client --config=/tmp/" ++ v ++ "/kubeadmcfg.yaml")
         ("Generate api-server client certificate for [" ++ v ++ "]")]
    (generateActions e).2.length = 23 ∧
    (generateActions e).2 =
      [{ ActionType := "command", Name := "Generate temporary directories",
         Command := "mkdir -p /tmp/" ++ a1 ++ "/ /tmp/" ++ a2 ++ "/ /tmp/" ++ a3 ++ "/" },
       write "build kubeadm config for node 0" h1 a1,
       write "build kubeadm config for node 1" h2 a2,
       write "build kubeadm config for node 1" h3 a3]
      ++ certs a3 ++ [archive a3, download a3]
      ++ certs a2 ++ [archive a2, download a2]
      ++ certs a1 := by
  intro e version write cleanup cert tar archive download certs
  have key : (generateActions e).2 =
      [{ ActionType := "command", Name := "Generate temporary directories",
         Command := "mkdir -p /tmp/" ++ a1 ++ "/ /tmp/" ++ a2 ++ "/ /tmp/" ++ a3 ++ "/" },
       write "build kubeadm config for node 0" h1 a1,
       write "build kubeadm config for node 1" h2 a2,
       write "build kubeadm config for node 1" h3 a3]
      ++ certs a3 ++ [archive a3, download a3]
      ++ certs a2 ++ [archive a2, download a2]
      ++ certs a1 := by
    rw [generateActions_unfold]
    rfl
  refine ⟨?_, key⟩
  rw [key]
  rfl

/-- C2: for every topology, `generateActions` with `InitCA = true` returns the
root command `kubeadm init phase certs etcd-ca` followed by exactly the list
it returns for the same topology with `InitCA = false`. -/
theorem generateActions_initCA_prepends (e : etcdMembers) :
    (generateActions { e with InitCA := true }).2 =
      ({ ActionType := "command", Command := "kubeadm init phase certs etcd-ca",
         CommandSudo := "root", Name := "Initialise Certificate Authority" } : Action)
        :: (generateActions { e with InitCA := false }).2 := by
  rw [generateActions_unfold, generateActions_unfold]
  rfl

/-! ## Theorems: inheritance from the global profile -/

/-- C7: after `h.PopulateConfiguration(g)` each of the ten fields holds the
value of `g` if the field of `h` was the empty string, and the original value
of `h` if it was not, whatever the value of `g`. -/
theorem PopulateConfiguration_fields (h g : HostConfig) :
    (PopulateConfiguration h g).Gateway = (if h.Gateway = "" then g.Gateway else h.Gateway) ∧
    (PopulateConfiguration h g).Subnet = (if h.Subnet = "" then g.Subnet else h.Subnet) ∧
    (PopulateConfiguration h g).NameServer = (if h.NameServer = "" then g.NameServer else h.NameServer) ∧
    (PopulateConfiguration h g).Adapter = (if h.Adapter = "" then g.Adapter else h.Adapter) ∧
    (PopulateConfiguration h g).RepositoryAddress =
      (if h.RepositoryAddress = "" then g.RepositoryAddress else h.RepositoryAddress) ∧
    (PopulateConfiguration h g).MirrorDirectory =
      (if h.MirrorDirectory = "" then g.MirrorDirectory else h.MirrorDirectory) ∧
    (PopulateConfiguration h g).Username = (if h.Username = "" then g.Username else h.Username) ∧
    (PopulateConfiguration h g).Password = (if h.Password = "" then g.Password else h.Password) ∧
    (PopulateConfiguration h g).SSHKeyPath = (if h.SSHKeyPath = "" then g.SSHKeyPath else h.SSHKeyPath) ∧
    (PopulateConfiguration h g).Packages = (if h.Packages = "" then g.Packages else h.Packages) := by
  simp only [PopulateConfiguration, apply_ite HostConfig.Gateway, apply_ite HostConfig.Subnet,
    apply_ite HostConfig.NameServer, apply_ite HostConfig.Adapter,
    apply_ite HostConfig.RepositoryAddress, apply_ite HostConfig.MirrorDirectory,
    apply_ite HostConfig.Username, apply_ite HostConfig.Password,
    apply_ite HostConfig.SSHKeyPath, apply_ite HostConfig.Packages, ite_self, and_self]

/-! ## Theorems: lookup by MAC -/

/-- C9: when `AnyBoot` is true, `FindDeployment` returns `anyboot` for every
MAC string and every content of the registry. -/
theorem FindDeployment_anyboot (x : Externals) (s : ServerState) (mac : String)
    (h : s.AnyBoot = true) : FindDeployment x s mac = "anyboot" := by
  simp [FindDeployment, h]

/-- Witness of C9 on a registry with a matching entry. -/
theorem FindDeployment_anyboot_witness :
    ({ AnyBoot := true, Deployments := { Configs := [entryPreseed] } } : ServerState).AnyBoot = true ∧
    FindDeployment (sampleExternals {})
      { AnyBoot := true, Deployments := { Configs := [entryPreseed] } } "aa:bb:cc:dd:ee:ff" = "anyboot" :=
  ⟨rfl, FindDeployment_anyboot _ _ _ rfl⟩

/-- The loop returns the config name of the first entry that the comparison
`mac == strings.ToLower(entry.MAC)` accepts. -/
theorem findDeploymentLoop_first (x : Externals) (mac : String) (pre : List DeploymentConfig)
    (c : DeploymentConfig) (post : List DeploymentConfig)
    (hpre : ∀ d ∈ pre, mac ≠ x.ToLower d.MAC) (hc : mac = x.ToLower c.MAC) :
    findDeploymentLoop x mac (pre ++ c :: post) = c.ConfigName := by
  induction pre with
  | nil => simp [findDeploymentLoop, ← hc]
  | cons d rest ih =>
    have hd : mac ≠ x.ToLower d.MAC := hpre d (List.mem_cons_self d rest)
    have hrest : ∀ d1 ∈ rest, mac ≠ x.ToLower d1.MAC :=
      fun d1 h1 => hpre d1 (List.mem_cons_of_mem d h1)
    simp [findDeploymentLoop, hd, ih hrest]

/-- The loop returns the empty string when the comparison accepts no entry. -/
theorem findDeploymentLoop_miss (x : Externals) (mac : String) (l : List DeploymentConfig)
    (h : ∀ d ∈ l, mac ≠ x.ToLower d.MAC) : findDeploymentLoop x mac l = "" := by
  induction l with
  | nil => rfl
  | cons d rest ih =>
    have hd : mac ≠ x.ToLower d.MAC := h d (List.mem_cons_self d rest)
    have hrest : ∀ d1 ∈ rest, mac ≠ x.ToLower d1.MAC :=
      fun d1 h1 => h d1 (List.mem_cons_of_mem d h1)
    simp [findDeploymentLoop, hd, ih hrest]

/-- What the lookup computes in terms of the comparison of the code: with
`AnyBoot` false, `FindDeployment(mac)` is the empty string when the registry
has no entries and when the comparison `mac == strings.ToLower(entry.MAC)`
accepts no entry, and otherwise it is the config name of the first entry, in
manifest order, that this comparison accepts. -/
theorem FindDeployment_lookup (x : Externals) (s : ServerState) (mac : String)
    (h : s.AnyBoot = false) :
    (s.Deployments.Configs = [] → FindDeployment x s mac = "") ∧
    ((∀ d ∈ s.Deployments.Configs, mac ≠ x.ToLower d.MAC) → FindDeployment x s mac = "") ∧
    (∀ (pre : List DeploymentConfig) (c : DeploymentConfig) (post : List DeploymentConfig),
      s.Deployments.Configs = pre ++ c :: post →
      (∀ d ∈ pre, mac ≠ x.ToLower d.MAC) → mac = x.ToLower c.MAC →
      FindDeployment x s mac = c.ConfigName) := by
  refine ⟨?_, ?_, ?_⟩
  · intro hnil
    simp [FindDeployment, h, hnil]
  · intro hmiss
    simp only [FindDeployment, h, Bool.false_eq_true, if_false]
    split
    · rfl
    · exact findDeploymentLoop_miss x mac _ hmiss
  · intro pre c post hsplit hpre hc
    simp only [FindDeployment, h, Bool.false_eq_true, if_false, hsplit]
    rw [if_neg (by simp)]
    exact findDeploymentLoop_first x mac pre c post hpre hc

/-- C10: a lookup does not return the config name of the first entry whose
MAC matches. With `AnyBoot` false and the one entry registered under
`AA:BB:CC:DD:EE:FF` with the config name `preseed`, the query with the
identical MAC `AA:BB:CC:DD:EE:FF` returns the empty string, the result of a
miss; only the lower-case query `aa:bb:cc:dd:ee:ff` returns `preseed`. -/
theorem FindDeployment_identical_query_misses :
    entryUpperCase.MAC = "AA:BB:CC:DD:EE:FF" ∧
    entryUpperCase.ConfigName = "preseed" ∧
    ({ Deployments := { Configs := [entryUpperCase] } } : ServerState).AnyBoot = false ∧
    FindDeployment (sampleExternals {})
      { Deployments := { Configs := [entryUpperCase] } } "AA:BB:CC:DD:EE:FF" = "" ∧
    FindDeployment (sampleExternals {})
      { Deployments := { Configs := [entryUpperCase] } } "aa:bb:cc:dd:ee:ff" = "preseed" := by
  decide

/-- The loop does not depend on the case of the registered MACs: two lists
of entries with the same config names, whose MACs agree after
`strings.ToLower`, give the same result for every query. -/
theorem findDeploymentLoop_registered_case (x : Externals) (mac : String)
    (l1 l2 : List DeploymentConfig)
    (h : List.Forall₂ (fun c d => x.ToLower c.MAC = x.ToLower d.MAC ∧
      c.ConfigName = d.ConfigName) l1 l2) :
    findDeploymentLoop x mac l1 = findDeploymentLoop x mac l2 := by
  induction h with
  | nil => rfl
  | cons hcd _ ih => simp only [findDeploymentLoop, hcd.1, hcd.2, ih]

/-- C8: the comparison lower-cases the registered MAC and not the queried
one: with an entry registered for `aa:bb:cc:dd:ee:ff` and `AnyBoot` false, the
query `aa:bb:cc:dd:ee:ff` returns the config name and the query
`AA:BB:CC:DD:EE:FF` returns the empty string. -/
theorem FindDeployment_upper_case_query_misses :
    FindDeployment (sampleExternals {})
      { Deployments := { Configs := [entryPreseed] } } "aa:bb:cc:dd:ee:ff" = "preseed" ∧
    FindDeployment (sampleExternals {})
      { Deployments := { Configs := [entryPreseed] } } "AA:BB:CC:DD:EE:FF" = "" ∧
    (sampleExternals {}).ToLower "AA:BB:CC:DD:EE:FF" = "aa:bb:cc:dd:ee:ff" := by
  decide

/-! ## Lemmas: what the loop of `UpdateControllerConfig` touches -/

theorem AgreeOutside.refl (touched : String → Prop) (s : ServerState) :
    AgreeOutside touched s s :=
  ⟨rfl, rfl, rfl, fun _ _ => ⟨rfl, Iff.rfl⟩⟩

theorem AgreeOutside.trans {P Q R : String → Prop} {s t u : ServerState}
    (hst : AgreeOutside P s t) (htu : AgreeOutside Q t u)
    (hP : ∀ p, P p → R p) (hQ : ∀ p, Q p → R p) : AgreeOutside R s u := by
  obtain ⟨a1, d1, h1, f1⟩ := hst
  obtain ⟨a2, d2, h2, f2⟩ := htu
  refine ⟨a2.trans a1, d2.trans d1, h2.trans h1, fun p hp => ?_⟩
  have hp1 := f1 p (fun h => hp (hP p h))
  have hp2 := f2 p (fun h => hp (hQ p h))
  exact ⟨hp2.1.trans hp1.1, hp2.2.trans hp1.2⟩

theorem publish_agree (s t : ServerState) (text path content : String)
    (h : publish s text path content = .ok t) : AgreeOutside (fun p => p = path) s t := by
  by_cases ht : text = ""
  · simp only [publish, ht, ne_eq, not_true_eq_false, if_false, Except.ok.injEq] at h
    subst h
    exact AgreeOutside.refl _ _
  · by_cases h0 : path = ""
    · simp [publish, HandleFunc, ht, h0] at h
    · by_cases hmem : path ∈ s.handlers
      · simp [publish, HandleFunc, ht, h0, hmem] at h
      · simp only [publish, HandleFunc, ht, h0, hmem, ne_eq, not_false_eq_true, if_true,
          if_false, Except.ok.injEq] at h
        subst h
        refine ⟨rfl, rfl, rfl, fun p hp => ?_⟩
        simp [hp]

theorem publishEntry_agree (s : ServerState) (mac a b k : String) :
    AgreeOutside (fun p => p ∈ artifactPaths mac) s (publishEntry s mac a b k).1 := by
  unfold publishEntry
  cases h1 : publish s a ("/" ++ dashMac mac ++ ".ipxe") a with
  | error msg => exact AgreeOutside.refl _ _
  | ok s1 =>
    have f1 := publish_agree _ _ _ _ _ h1
    have g1 : AgreeOutside (fun p => p ∈ artifactPaths mac) s s1 :=
      AgreeOutside.trans (AgreeOutside.refl (fun _ => False) s) f1 (fun _ h => h.elim)
        (fun p hp => by simp [artifactPaths, hp])
    dsimp only
    cases h2 : publish s1 b ("/" ++ dashMac mac ++ ".cfg") b with
    | error msg => exact g1
    | ok s2 =>
      have f2 := publish_agree _ _ _ _ _ h2
      have g2 : AgreeOutside (fun p => p ∈ artifactPaths mac) s s2 :=
        AgreeOutside.trans g1 f2 (fun _ h => h) (fun p hp => by simp [artifactPaths, hp])
      dsimp only
      cases h3 : publish s2 k ("/" ++ dashMac mac ++ ".ks") b with
      | error msg => exact g2
      | ok s3 =>
        have f3 := publish_agree _ _ _ _ _ h3
        exact AgreeOutside.trans g2 f3 (fun _ h => h) (fun p hp => by simp [artifactPaths, hp])

/-- The loop body on an entry that resolves to no boot configuration. -/
theorem updateEntry_unknown (x : Externals) (g : HostConfig) (s : ServerState)
    (c : DeploymentConfig) (h : x.findBootConfigForDeployment c = none) :
    updateEntry x g s c = (s, .error (.returned (some
      ("Host [" ++ c.MAC ++ "] uses unknown config [" ++ c.ConfigName ++ "], stopping config update")))) := by
  simp [updateEntry, h]

/-- The loop body on an entry that resolves: it goes on with the resolved
entry or it panics, and never returns. -/
theorem updateEntry_known (x : Externals) (g : HostConfig) (s : ServerState)
    (c : DeploymentConfig) (bc : BootConfig) (h : x.findBootConfigForDeployment c = some bc) :
    (updateEntry x g s c).2 = .ok (resolvedEntry g c bc) ∨
    ∃ msg, (updateEntry x g s c).2 = .error (.panicked msg) := by
  simp only [updateEntry, h]
  split
  · exact Or.inr ⟨_, rfl⟩
  · exact Or.inl rfl

theorem updateEntry_agree (x : Externals) (g : HostConfig) (s : ServerState)
    (c : DeploymentConfig) :
    AgreeOutside (fun p => p ∈ artifactPaths c.MAC) s (updateEntry x g s c).1 := by
  unfold updateEntry
  cases h : x.findBootConfigForDeployment c with
  | none => exact AgreeOutside.refl _ _
  | some bc =>
    simp only
    have key := publishEntry_agree s c.MAC
      (renderEntry x s.httpAddress bc (resolvedEntry g c bc)).1
      (renderEntry x s.httpAddress bc (resolvedEntry g c bc)).2.1
      (renderEntry x s.httpAddress bc (resolvedEntry g c bc)).2.2
    simp only [resolvedEntry] at key
    split
    · next s1 msg heq => rw [heq] at key; exact key
    · next s1 heq => rw [heq] at key; exact key

theorem updateLoop_agree (x : Externals) (g : HostConfig) (l : List DeploymentConfig) :
    ∀ s : ServerState,
      AgreeOutside (fun p => ∃ d ∈ l, p ∈ artifactPaths d.MAC) s (updateLoop x g s l).1 := by
  induction l with
  | nil => intro s; exact AgreeOutside.refl _ _
  | cons c rest ih =>
    intro s
    have h1 := updateEntry_agree x g s c
    have up1 : ∀ p, p ∈ artifactPaths c.MAC → ∃ d ∈ c :: rest, p ∈ artifactPaths d.MAC :=
      fun p hp => ⟨c, List.mem_cons_self c rest, hp⟩
    have up2 : ∀ p, (∃ d ∈ rest, p ∈ artifactPaths d.MAC) →
        ∃ d ∈ c :: rest, p ∈ artifactPaths d.MAC :=
      fun p ⟨d, hd, hp⟩ => ⟨d, List.mem_cons_of_mem c hd, hp⟩
    unfold updateLoop
    cases he : updateEntry x g s c with
    | mk s1 r1 =>
      rw [he] at h1
      cases r1 with
      | error out =>
        exact AgreeOutside.trans h1 (AgreeOutside.refl (fun _ => False) s1) up1 (fun _ h => h.elim)
      | ok c1 =>
        have h2 := ih s1
        simp only
        cases hl : updateLoop x g s1 rest with
        | mk s2 r2 =>
          rw [hl] at h2
          cases r2 with
          | error out => exact AgreeOutside.trans h1 h2 up1 up2
          | ok rest1 => exact AgreeOutside.trans h1 h2 up1 up2

/-! ## Lemmas: how the loop of `UpdateControllerConfig` ends -/

theorem updateLoop_cons_error (x : Externals) (g : HostConfig) (s s1 : ServerState)
    (c : DeploymentConfig) (rest : List DeploymentConfig) (out : Outcome)
    (h : updateEntry x g s c = (s1, .error out)) :
    updateLoop x g s (c :: rest) = (s1, .error out) := by
  simp [updateLoop, h]

theorem updateLoop_cons_ok (x : Externals) (g : HostConfig) (s s1 : ServerState)
    (c c1 : DeploymentConfig) (rest : List DeploymentConfig)
    (h : updateEntry x g s c = (s1, .ok c1)) :
    (updateLoop x g s (c :: rest)).1 = (updateLoop x g s1 rest).1 ∧
    (updateLoop x g s (c :: rest)).2 =
      (match (updateLoop x g s1 rest).2 with
       | .error out => .error out
       | .ok rest1 => .ok (c1 :: rest1)) := by
  simp only [updateLoop, h]
  cases hl : updateLoop x g s1 rest with
  | mk s2 r2 => cases r2 <;> exact ⟨rfl, rfl⟩

/-- When the loop makes the call return an error, the entries split into a
prefix of entries that resolve, over which the loop runs to its end, and a
first entry that does not resolve, which the error names; the state is the
one the loop reaches on the prefix. -/
theorem updateLoop_returned (x : Externals) (g : HostConfig) (l : List DeploymentConfig) :
    ∀ (s : ServerState) (e : Option String),
      (updateLoop x g s l).2 = .error (.returned e) →
      ∃ pre c post, l = pre ++ c :: post ∧
        (∀ d ∈ pre, x.findBootConfigForDeployment d ≠ none) ∧
        x.findBootConfigForDeployment c = none ∧
        e = some ("Host [" ++ c.MAC ++ "] uses unknown config [" ++ c.ConfigName
              ++ "], stopping config update") ∧
        (updateLoop x g s l).1 = (updateLoop x g s pre).1 ∧
        ∃ cs, (updateLoop x g s pre).2 = .ok cs := by
  induction l with
  | nil => intro s e h; simp [updateLoop] at h
  | cons c rest ih =>
    intro s e h
    cases hf : x.findBootConfigForDeployment c with
    | none =>
      have hu := updateLoop_cons_error x g s s c rest _ (updateEntry_unknown x g s c hf)
      rw [hu] at h
      simp only [Except.error.injEq, Outcome.returned.injEq] at h
      refine ⟨[], c, rest, rfl, by simp, hf, h.symm, ?_, [], rfl⟩
      rw [hu]
      rfl
    | some bc =>
      cases he : updateEntry x g s c with
      | mk s1 r1 =>
        have hk := updateEntry_known x g s c bc hf
        rw [he] at hk
        cases r1 with
        | error out =>
          rw [updateLoop_cons_error x g s s1 c rest out he] at h
          rcases hk with hk | ⟨msg, hk⟩
          · simp at hk
          · simp only [Except.error.injEq] at hk h
            rw [hk] at h
            simp at h
        | ok c1 =>
          have hc := updateLoop_cons_ok x g s s1 c c1 rest he
          rw [hc.2] at h
          have hrest : (updateLoop x g s1 rest).2 = .error (.returned e) := by
            cases hr : (updateLoop x g s1 rest).2 with
            | error out => rw [hr] at h; simpa using h
            | ok r => rw [hr] at h; simp at h
          obtain ⟨pre, c0, post, hsplit, hpre, hc0, hmsg, hstate, cs, hcs⟩ := ih s1 e hrest
          have hp := updateLoop_cons_ok x g s s1 c c1 pre he
          refine ⟨c :: pre, c0, post, by simp [hsplit], ?_, hc0, hmsg, ?_, c1 :: cs, ?_⟩
          · intro d hd
            rcases List.mem_cons.mp hd with rfl | hd
            · simp [hf]
            · exact hpre d hd
          · rw [hc.1, hp.1, hstate]
          · rw [hp.2, hcs]

/-- When the loop runs to its end, every entry resolves and the loop leaves
the entries resolved, in their order. -/
theorem updateLoop_ok (x : Externals) (g : HostConfig) (l : List DeploymentConfig) :
    ∀ (s : ServerState) (cs : List DeploymentConfig),
      (updateLoop x g s l).2 = .ok cs →
      List.Forall₂ (fun c c1 => ∃ bc, x.findBootConfigForDeployment c = some bc ∧
        c1 = resolvedEntry g c bc) l cs := by
  induction l with
  | nil =>
    intro s cs h
    simp only [updateLoop, Except.ok.injEq] at h
    subst h
    exact List.Forall₂.nil
  | cons c rest ih =>
    intro s cs h
    cases hf : x.findBootConfigForDeployment c with
    | none =>
      rw [updateLoop_cons_error x g s s c rest _ (updateEntry_unknown x g s c hf)] at h
      simp at h
    | some bc =>
      cases he : updateEntry x g s c with
      | mk s1 r1 =>
        have hk := updateEntry_known x g s c bc hf
        rw [he] at hk
        cases r1 with
        | error out =>
          rw [updateLoop_cons_error x g s s1 c rest out he] at h
          simp at h
        | ok c1 =>
          have hc := updateLoop_cons_ok x g s s1 c c1 rest he
          rw [hc.2] at h
          rcases hk with hk | ⟨msg, hk⟩
          · simp only [Except.ok.injEq] at hk
            cases hr : (updateLoop x g s1 rest).2 with
            | error out => rw [hr] at h; simp at h
            | ok r =>
              rw [hr] at h
              simp only [Except.ok.injEq] at h
              subst h
              exact List.Forall₂.cons ⟨bc, hf, hk⟩ (ih s1 r hr)
          · simp at hk

/-- On entries that resolve followed by one that does not, the loop makes
the call return the error that names this one, unless a registration panics
before. -/
theorem updateLoop_unknown (x : Externals) (g : HostConfig) (pre : List DeploymentConfig)
    (c : DeploymentConfig) (post : List DeploymentConfig)
    (hpre : ∀ d ∈ pre, x.findBootConfigForDeployment d ≠ none)
    (hc : x.findBootConfigForDeployment c = none) :
    ∀ s : ServerState,
      (updateLoop x g s (pre ++ c :: post)).2 = .error (.returned (some
        ("Host [" ++ c.MAC ++ "] uses unknown config [" ++ c.ConfigName
          ++ "], stopping config update"))) ∨
      ∃ msg, (updateLoop x g s (pre ++ c :: post)).2 = .error (.panicked msg) := by
  induction pre with
  | nil =>
    intro s
    left
    rw [List.nil_append, updateLoop_cons_error x g s s c post _ (updateEntry_unknown x g s c hc)]
  | cons d rest ih =>
    intro s
    have hrest : ∀ d1 ∈ rest, x.findBootConfigForDeployment d1 ≠ none :=
      fun d1 h1 => hpre d1 (List.mem_cons_of_mem d h1)
    cases hf : x.findBootConfigForDeployment d with
    | none => exact absurd hf (hpre d (List.mem_cons_self d rest))
    | some bc =>
      cases he : updateEntry x g s d with
      | mk s1 r1 =>
        have hk := updateEntry_known x g s d bc hf
        rw [he] at hk
        cases r1 with
        | error out =>
          rw [List.cons_append, updateLoop_cons_error x g s s1 d _ out he]
          rcases hk with hk | ⟨msg, hk⟩
          · simp at hk
          · simp only [Except.error.injEq] at hk
            exact Or.inr ⟨msg, by rw [hk]⟩
        | ok d1 =>
          rw [List.cons_append, (updateLoop_cons_ok x g s s1 d d1 _ he).2]
          rcases ih hrest s1 with h1 | ⟨msg, h1⟩
          · left; rw [h1]
          · right; exact ⟨msg, by rw [h1]⟩

/-- A manifest with an unresolvable entry: the call returns the error that
names the MAC and the config name of the first such entry, unless a
registration panics before, and `Deployments` keeps its value either way. -/
theorem UpdateControllerConfig_unknown_entry (x : Externals) (s : ServerState)
    (configFile : ByteArray) (m : DeploymentConfigurationFile)
    (pre : List DeploymentConfig) (c : DeploymentConfig) (post : List DeploymentConfig)
    (hm : x.Unmarshal configFile = .ok m) (hsplit : m.Configs = pre ++ c :: post)
    (hpre : ∀ d ∈ pre, x.findBootConfigForDeployment d ≠ none)
    (hc : x.findBootConfigForDeployment c = none) :
    ((UpdateControllerConfig x s configFile).2 = .returned (some
        ("Host [" ++ c.MAC ++ "] uses unknown config [" ++ c.ConfigName
          ++ "], stopping config update")) ∨
      ∃ msg, (UpdateControllerConfig x s configFile).2 = .panicked msg) ∧
    (UpdateControllerConfig x s configFile).1.Deployments = s.Deployments := by
  have hloop := updateLoop_unknown x m.GlobalServerConfig pre c post hpre hc s
  have hagree := updateLoop_agree x m.GlobalServerConfig m.Configs s
  rw [← hsplit] at hloop
  unfold UpdateControllerConfig
  rw [hm]
  dsimp only
  cases hl : updateLoop x m.GlobalServerConfig s m.Configs with
  | mk s1 r =>
    rw [hl] at hloop hagree
    dsimp only at hloop hagree
    rcases hloop with h1 | ⟨msg, h1⟩
    · subst h1
      exact ⟨Or.inl rfl, hagree.2.1⟩
    · subst h1
      exact ⟨Or.inr ⟨msg, rfl⟩, hagree.2.1⟩

/-- A call that does not return `nil` leaves `Deployments` as it was. -/
theorem UpdateControllerConfig_failure_keeps_registry (x : Externals) (s : ServerState)
    (configFile : ByteArray) (h : (UpdateControllerConfig x s configFile).2 ≠ .returned none) :
    (UpdateControllerConfig x s configFile).1.Deployments = s.Deployments := by
  unfold UpdateControllerConfig at h ⊢
  cases hm : x.Unmarshal configFile with
  | error err => rfl
  | ok m =>
    rw [hm] at h
    dsimp only at h ⊢
    have hagree := updateLoop_agree x m.GlobalServerConfig m.Configs s
    cases hl : updateLoop x m.GlobalServerConfig s m.Configs with
    | mk s1 r =>
      rw [hl] at h hagree
      cases r with
      | error out => exact hagree.2.1
      | ok cs =>
        dsimp only at h ⊢
        split
        · exact hagree.2.1
        · next hne => simp [hne] at h

/-- A call that returns `nil` on a manifest with at least one entry replaces
`Deployments` by the manifest with every entry resolved: same order, same MAC
and config name, `ConfigBoot` the boot configuration found and `ConfigHost`
the host profile populated from the global profile of the manifest. -/
theorem UpdateControllerConfig_success_registry (x : Externals) (s : ServerState)
    (configFile : ByteArray) (m : DeploymentConfigurationFile)
    (hm : x.Unmarshal configFile = .ok m) (hne : m.Configs ≠ [])
    (h : (UpdateControllerConfig x s configFile).2 = .returned none) :
    (UpdateControllerConfig x s configFile).1.Deployments.GlobalServerConfig
      = m.GlobalServerConfig ∧
    List.Forall₂ (fun c c1 => ∃ bc, x.findBootConfigForDeployment c = some bc ∧
        c1 = resolvedEntry m.GlobalServerConfig c bc)
      m.Configs (UpdateControllerConfig x s configFile).1.Deployments.Configs := by
  unfold UpdateControllerConfig at h ⊢
  rw [hm] at h ⊢
  dsimp only at h ⊢
  cases hl : updateLoop x m.GlobalServerConfig s m.Configs with
  | mk s1 r =>
    rw [hl] at h
    cases r with
    | error out =>
      have hr := updateLoop_returned x m.GlobalServerConfig m.Configs s none
        (by rw [hl]; simpa using h)
      obtain ⟨_, _, _, _, _, _, hmsg, _⟩ := hr
      simp at hmsg
    | ok cs =>
      have hall := updateLoop_ok x m.GlobalServerConfig m.Configs s cs (by rw [hl])
      dsimp only
      have hlen : cs.length ≠ 0 := by
        have := hall.length_eq
        intro h0
        exact hne (List.length_eq_zero.mp (this.trans h0))
      rw [if_neg hlen]
      exact ⟨rfl, hall⟩

/-! ## Theorems: updating the registry -/

/-- C5: a manifest that decodes and has no entries makes
`UpdateControllerConfig` return `nil` and leaves `Deployments` as it was. -/
theorem UpdateControllerConfig_empty (x : Externals) (s : ServerState) (configFile : ByteArray)
    (m : DeploymentConfigurationFile) (hm : x.Unmarshal configFile = .ok m)
    (hnil : m.Configs = []) :
    (UpdateControllerConfig x s configFile).2 = .returned none ∧
    (UpdateControllerConfig x s configFile).1.Deployments = s.Deployments := by
  simp [UpdateControllerConfig, hm, hnil, updateLoop]

/-- Witness of C5: an empty update on a registry that holds one entry. -/
theorem UpdateControllerConfig_empty_witness :
    (sampleExternals {}).Unmarshal ByteArray.empty = .ok {} ∧
    ({} : DeploymentConfigurationFile).Configs = [] ∧
    (UpdateControllerConfig (sampleExternals {})
      { Deployments := { Configs := [entryPreseed] } } ByteArray.empty).2 = .returned none ∧
    (UpdateControllerConfig (sampleExternals {})
      { Deployments := { Configs := [entryPreseed] } } ByteArray.empty).1.Deployments
        = { Configs := [entryPreseed] } :=
  ⟨rfl, rfl, UpdateControllerConfig_empty (sampleExternals {})
    { Deployments := { Configs := [entryPreseed] } } ByteArray.empty {} rfl rfl⟩

/-- C3: an unresolvable entry that comes after an entry whose path is already
registered is never reached. After a first update with the entry
`aa:bb:cc:dd:ee:ff`/`preseed` has returned `nil`, the update with that entry
followed by an entry of unknown config name panics in `http.HandleFunc`
instead of returning the error that names `00:11:22:33:44:55` and `nosuch`;
so does, on the initial state, the manifest that lists the first entry twice
before the unknown one. `Deployments` keeps its value in both. -/
theorem UpdateControllerConfig_unknown_after_registered_panics :
    (UpdateControllerConfig (sampleExternals { Configs := [entryPreseed] }) {} ByteArray.empty).2
      = .returned none ∧
    (UpdateControllerConfig (sampleExternals { Configs := [entryPreseed, entryUnknown] })
      (UpdateControllerConfig (sampleExternals { Configs := [entryPreseed] }) {} ByteArray.empty).1
      ByteArray.empty).2
      = .panicked "http: multiple registrations for /aa-bb-cc-dd-ee-ff.ipxe" ∧
    (sampleExternals {}).findBootConfigForDeployment entryUnknown = none ∧
    (UpdateControllerConfig (sampleExternals { Configs := [entryPreseed, entryPreseed, entryUnknown] })
      {} ByteArray.empty).2
      = .panicked "http: multiple registrations for /aa-bb-cc-dd-ee-ff.ipxe" ∧
    (UpdateControllerConfig (sampleExternals { Configs := [entryPreseed, entryPreseed, entryUnknown] })
      {} ByteArray.empty).1.Deployments = {} := by
  decide

/-- C4: an update that returns an error has published artifacts. On the
initial state, the manifest whose first entry is `aa:bb:cc:dd:ee:ff`/`preseed`
and whose second entry has the unknown config name `nosuch` makes the call
return the error and leave `Deployments` empty, and yet the `.ipxe` and the
`.cfg` path of the first entry are registered and hold its boot-loader script
and its installer text: `httpPaths` and the registered paths differ from
those before the call. -/
theorem UpdateControllerConfig_error_after_publication :
    (UpdateControllerConfig (sampleExternals { Configs := [entryPreseed, entryUnknown] })
      {} ByteArray.empty).2
      = .returned (some "Host [00:11:22:33:44:55] uses unknown config [nosuch], stopping config update") ∧
    (UpdateControllerConfig (sampleExternals { Configs := [entryPreseed, entryUnknown] })
      {} ByteArray.empty).1.Deployments = {} ∧
    (UpdateControllerConfig (sampleExternals { Configs := [entryPreseed, entryUnknown] })
      {} ByteArray.empty).1.httpPaths "/aa-bb-cc-dd-ee-ff.ipxe" = some "preseed kic" ∧
    (UpdateControllerConfig (sampleExternals { Configs := [entryPreseed, entryUnknown] })
      {} ByteArray.empty).1.httpPaths "/aa-bb-cc-dd-ee-ff.cfg" = some "d-i " ∧
    ({} : ServerState).httpPaths "/aa-bb-cc-dd-ee-ff.ipxe" = none ∧
    ({} : ServerState).httpPaths "/aa-bb-cc-dd-ee-ff.cfg" = none ∧
    (UpdateControllerConfig (sampleExternals { Configs := [entryPreseed, entryUnknown] })
      {} ByteArray.empty).1.httpPaths ≠ ({} : ServerState).httpPaths ∧
    (UpdateControllerConfig (sampleExternals { Configs := [entryPreseed, entryUnknown] })
      {} ByteArray.empty).1.handlers = ["/aa-bb-cc-dd-ee-ff.ipxe", "/aa-bb-cc-dd-ee-ff.cfg"] ∧
    ({} : ServerState).handlers = [] := by
  refine ⟨by decide, by decide, by decide, by decide, rfl, rfl, ?_, by decide, rfl⟩
  intro h
  have h1 := congrFun h "/aa-bb-cc-dd-ee-ff.ipxe"
  revert h1
  decide

/-- What an update that returns an error leaves untouched: the entries split
into the entries before the first unresolvable one, which all resolve, and
the rest; `httpPaths` and the registered handler paths are those the loop
reaches on the entries before it, every path that is not an `.ipxe`, `.cfg`
or `.ks` path of one of these entries keeps its content and its registration,
and when the first entry is the unresolvable one both equal their values
before the call. -/
theorem UpdateControllerConfig_error_publishes_earlier (x : Externals) (s : ServerState)
    (configFile : ByteArray) (m : DeploymentConfigurationFile) (err : String)
    (hm : x.Unmarshal configFile = .ok m)
    (herr : (UpdateControllerConfig x s configFile).2 = .returned (some err)) :
    ∃ pre c post, m.Configs = pre ++ c :: post ∧
      (∀ d ∈ pre, x.findBootConfigForDeployment d ≠ none) ∧
      x.findBootConfigForDeployment c = none ∧
      (UpdateControllerConfig x s configFile).1.httpPaths
        = (updateLoop x m.GlobalServerConfig s pre).1.httpPaths ∧
      (UpdateControllerConfig x s configFile).1.handlers
        = (updateLoop x m.GlobalServerConfig s pre).1.handlers ∧
      (∀ p, (∀ d ∈ pre, p ∉ artifactPaths d.MAC) →
        (UpdateControllerConfig x s configFile).1.httpPaths p = s.httpPaths p ∧
        (p ∈ (UpdateControllerConfig x s configFile).1.handlers ↔ p ∈ s.handlers)) ∧
      (pre = [] →
        (UpdateControllerConfig x s configFile).1.httpPaths = s.httpPaths ∧
        (UpdateControllerConfig x s configFile).1.handlers = s.handlers) := by
  unfold UpdateControllerConfig at herr ⊢
  rw [hm] at herr ⊢
  dsimp only at herr ⊢
  cases hl : updateLoop x m.GlobalServerConfig s m.Configs with
  | mk s1 r =>
    rw [hl] at herr
    cases r with
    | ok cs =>
      dsimp only at herr
      split at herr <;> simp at herr
    | error out =>
      dsimp only at herr ⊢
      subst herr
      obtain ⟨pre, c, post, hsplit, hpre, hc, _, hstate, _⟩ :=
        updateLoop_returned x m.GlobalServerConfig m.Configs s (some err) (by rw [hl])
      rw [hl] at hstate
      dsimp only at hstate
      subst hstate
      refine ⟨pre, c, post, hsplit, hpre, hc, rfl, rfl, ?_, ?_⟩
      · intro p hp
        have hagree := updateLoop_agree x m.GlobalServerConfig pre s
        exact hagree.2.2.2 p (fun ⟨d, hd, hmem⟩ => hp d hd hmem)
      · intro hnil
        subst hnil
        exact ⟨rfl, rfl⟩

/-- C6: a second update for a MAC whose path is already registered does not
return. After the update with `aa:bb:cc:dd:ee:ff`/`preseed` has returned `nil`
and set `Deployments`, the update with the resolvable entry
`aa:bb:cc:dd:ee:ff`/`vsphere` panics in `http.HandleFunc` and `Deployments`
still holds the first manifest; on the initial state the manifest that lists
the `preseed` entry twice panics and `Deployments` stays empty. -/
theorem UpdateControllerConfig_second_update_panics :
    (UpdateControllerConfig (sampleExternals { Configs := [entryPreseed] }) {} ByteArray.empty).2
      = .returned none ∧
    (sampleExternals {}).findBootConfigForDeployment entryVsphere
      = some { ConfigName := "vsphere", Kernel := "m", Initrd := "", Cmdline := "b" } ∧
    (UpdateControllerConfig (sampleExternals { Configs := [entryVsphere] })
      (UpdateControllerConfig (sampleExternals { Configs := [entryPreseed] }) {} ByteArray.empty).1
      ByteArray.empty).2
      = .panicked "http: multiple registrations for /aa-bb-cc-dd-ee-ff.ipxe" ∧
    (UpdateControllerConfig (sampleExternals { Configs := [entryVsphere] })
      (UpdateControllerConfig (sampleExternals { Configs := [entryPreseed] }) {} ByteArray.empty).1
      ByteArray.empty).1.Deployments
      = { Configs := [{ entryPreseed with
            ConfigBoot := { ConfigName := "preseed", Kernel := "k", Initrd := "i", Cmdline := "c" } }] } ∧
    (UpdateControllerConfig (sampleExternals { Configs := [entryPreseed, entryPreseed] })
      {} ByteArray.empty).2
      = .panicked "http: multiple registrations for /aa-bb-cc-dd-ee-ff.ipxe" ∧
    (UpdateControllerConfig (sampleExternals { Configs := [entryPreseed, entryPreseed] })
      {} ByteArray.empty).1.Deployments = {} := by
  decide

/-! ## Theorems: the certificate plan, continued -/

/-- One iteration of the certificate loop, with the test on the index made
explicit: the cleanup and the four certificate commands, and then the archive
and the download exactly when the index is not the last one. -/
theorem certificateLoopBody_eq (len i : Nat) (v : String) :
    certificateLoopBody len i v =
      [({ ActionType := "command", CommandSudo := "root",
          Command := "find /etc/kubernetes/pki -not -name ca.crt -not -name ca.key -type f -delete",
          Name := "Remove any existing certificates before attempting to generate any new ones" } : Action),
       { ActionType := "command", CommandSudo := "root",
         Command := "kubeadm init phase certs etcd-server --config=/tmp/" ++ v ++ "/kubeadmcfg.yaml",
         Name := "Generate etcd server certificate for [" ++ v ++ "]" },
       { ActionType := "command", CommandSudo := "root",
         Command := "kubeadm init phase certs etcd-peer --config=/tmp/" ++ v ++ "/kubeadmcfg.yaml",
         Name := "Generate peer certificate for [" ++ v ++ "]" },
       { ActionType := "command", CommandSudo := "root",
         Command := "kubeadm init phase certs etcd-healthcheck-client --config=/tmp/" ++ v ++ "/kubeadmcfg.yaml",
         Name := "Generate health check certificate for [" ++ v ++ "]" },
       { ActionType := "command", CommandSudo := "root",
         Command := "kubeadm init phase certs apiserver-etcd-client --config=/tmp/" ++ v ++ "/kubeadmcfg.yaml",
         Name := "Generate api-server client certificate for [" ++ v ++ "]" }]
      ++ (if i + 1 ≠ len then
          [({ ActionType := "command", CommandSudo := "root",
              Command := "tar -cvzf /tmp/" ++ v ++ ".tar.gz $(find /etc/kubernetes/pki -not -name ca.crt -not -name ca.key -type f) /tmp/" ++ v ++ "/kubeadmcfg.yaml",
              Name := "Archive generated certificates [" ++ v ++ "]" } : Action),
           { ActionType := "download", CommandSudo := "root",
             Command := "tar -cvzf /tmp/" ++ v ++ ".tar.gz $(find /etc/kubernetes/pki -not -name ca.crt -not -name ca.key -type f) /tmp/" ++ v ++ "/kubeadmcfg.yaml",
             Source := "/tmp/" ++ v ++ ".tar.gz", Destination := "/tmp/" ++ v ++ ".tar.gz",
             Name := "Retrieve the certificate bundle for [" ++ v ++ "]" }]
         else []) := by
  have hiff : ((i : Int) ≠ (len : Int) - 1) ↔ i + 1 ≠ len := by omega
  by_cases h : i + 1 ≠ len
  · simp only [certificateLoopBody, if_pos (hiff.mpr h), if_pos h]
    rfl
  · simp only [certificateLoopBody, if_neg (fun hh => h (hiff.mp hh)), if_neg h]
    rfl

/-- A string that ends with a non-empty string is not empty. -/
theorem append_ne_empty (s t : String) (h : t ≠ "") : s ++ t ≠ "" := by
  intro hst
  have hlen := congrArg String.length hst
  rw [String.length_append] at hlen
  have ht : t.length = 0 := by
    have h0 : ("" : String).length = 0 := rfl
    omega
  exact h (String.ext (List.length_eq_zero.mp ht))

/-- The first character of a string is the first character of every string
that it starts. -/
theorem head_append (s t : String) (c : Char) (h : s.data.head? = some c) :
    (s ++ t).data.head? = some c := by
  rw [String.data_append]
  cases hs : s.data with
  | nil => rw [hs] at h; simp at h
  | cons a rest => rw [hs] at h; simpa using h

/-- Two strings with different first characters differ. -/
theorem ne_of_head (s t : String) (c d : Char) (hs : s.data.head? = some c)
    (ht : t.data.head? = some d) (hcd : c ≠ d) : s ≠ t := by
  intro hst
  rw [hst, ht] at hs
  exact hcd (Option.some.inj hs).symm

/-- C20: the config-write actions do not carry pairwise distinct names. For
every topology the action that writes the config of the second node and the
action that writes the config of the third node, at the positions 2 and 3
after the optional CA action, are both named
`build kubeadm config for node 1`; no action is named for node 2. -/
theorem generateActions_third_config_write_name (e : etcdMembers) :
    let k := if e.InitCA = true then 1 else 0
    let version := if e.APIVersion = "" then "v1beta1" else e.APIVersion
    (generateActions e).2[k + 1]? = some
      { ActionType := "command", Name := "build kubeadm config for node 0",
        Command := "echo '" ++ buildKubeadm e version e.Hostname1 e.Address1
          ++ "' > /tmp/" ++ e.Address1 ++ "/kubeadmcfg.yaml" } ∧
    (generateActions e).2[k + 2]? = some
      { ActionType := "command", Name := "build kubeadm config for node 1",
        Command := "echo '" ++ buildKubeadm e version e.Hostname2 e.Address2
          ++ "' > /tmp/" ++ e.Address2 ++ "/kubeadmcfg.yaml" } ∧
    (generateActions e).2[k + 3]? = some
      { ActionType := "command", Name := "build kubeadm config for node 1",
        Command := "echo '" ++ buildKubeadm e version e.Hostname3 e.Address3
          ++ "' > /tmp/" ++ e.Address3 ++ "/kubeadmcfg.yaml" } ∧
    ∀ a ∈ (generateActions e).2, a.Name ≠ "build kubeadm config for node 2" := by
  intro k version
  have hplan := generateActions_unfold e
  refine ⟨?_, ?_, ?_, ?_⟩
  · rw [hplan]
    cases hca : e.InitCA <;> simp only [k, hca, Bool.false_eq_true, if_false, if_true] <;> rfl
  · rw [hplan]
    cases hca : e.InitCA <;> simp only [k, hca, Bool.false_eq_true, if_false, if_true] <;> rfl
  · rw [hplan]
    cases hca : e.InitCA <;> simp only [k, hca, Bool.false_eq_true, if_false, if_true] <;> rfl
  · intro a ha
    rw [hplan, certificateLoopBody_eq, certificateLoopBody_eq, certificateLoopBody_eq] at ha
    have hG : ∀ (l v r : String), l.data.head? = some 'G' →
        l ++ v ++ r ≠ "build kubeadm config for node 2" :=
      fun l v r hl => ne_of_head _ _ 'G' 'b' (head_append _ _ _ (head_append _ _ _ hl)) rfl (by decide)
    have hA : ∀ (l v r : String), l.data.head? = some 'A' →
        l ++ v ++ r ≠ "build kubeadm config for node 2" :=
      fun l v r hl => ne_of_head _ _ 'A' 'b' (head_append _ _ _ (head_append _ _ _ hl)) rfl (by decide)
    have hR : ∀ (l v r : String), l.data.head? = some 'R' →
        l ++ v ++ r ≠ "build kubeadm config for node 2" :=
      fun l v r hl => ne_of_head _ _ 'R' 'b' (head_append _ _ _ (head_append _ _ _ hl)) rfl (by decide)
    simp only [List.mem_append, List.mem_cons, List.mem_singleton, List.not_mem_nil, or_false,
      Nat.reduceAdd, ne_eq, Nat.reduceEqDiff, not_false_eq_true, not_true_eq_false, if_true,
      if_false] at ha
    rcases ha with ha | ha
    · split at ha
      · simp only [List.mem_singleton] at ha
        subst ha
        dsimp only
        decide
      · simp at ha
    · rcases ha with ha | ha
      · rcases ha with ha | ha | ha | ha <;> subst ha <;> dsimp only <;> decide
      · rcases ha with ha | ha | ha
        · rcases ha with (ha | ha | ha | ha | ha) | (ha | ha) <;> subst ha <;>
            first
            | (dsimp only; decide)
            | exact hG _ _ _ rfl
            | exact hA _ _ _ rfl
            | exact hR _ _ _ rfl
        · rcases ha with (ha | ha | ha | ha | ha) | (ha | ha) <;> subst ha <;>
            first
            | (dsimp only; decide)
            | exact hG _ _ _ rfl
            | exact hA _ _ _ rfl
            | exact hR _ _ _ rfl
        · rcases ha with ha | ha | ha | ha | ha <;> subst ha <;>
            first
            | (dsimp only; decide)
            | exact hG _ _ _ rfl

/-- A command action with a non-empty command text satisfies the three parts
of the invariant of actions. -/
theorem invariant_of_command (a : Action) (hk : a.ActionType = "command")
    (hc : a.Command ≠ "") :
    (a.ActionType = "command" ∨ a.ActionType = "download") ∧
    (a.ActionType = "download" → a.Source ≠ "" ∧ a.Destination ≠ "") ∧
    (a.ActionType = "command" → a.Command ≠ "") := by
  refine ⟨Or.inl hk, ?_, fun _ => hc⟩
  intro hd
  rw [hk] at hd
  exact absurd hd (by decide)

/-- A download action with non-empty source and destination satisfies the
three parts of the invariant of actions. -/
theorem invariant_of_download (a : Action) (hk : a.ActionType = "download")
    (hs : a.Source ≠ "") (hd : a.Destination ≠ "") :
    (a.ActionType = "command" ∨ a.ActionType = "download") ∧
    (a.ActionType = "download" → a.Source ≠ "" ∧ a.Destination ≠ "") ∧
    (a.ActionType = "command" → a.Command ≠ "") := by
  refine ⟨Or.inr hk, fun _ => ⟨hs, hd⟩, ?_⟩
  intro hc
  rw [hk] at hc
  exact absurd hc (by decide)

/-- C15: for every topology, empty hostnames and addresses included, and
either value of `InitCA`, every action that `generateActions` returns is of
kind `command` or `download`, has non-empty `Source` and `Destination` if it
is a download, and has a non-empty `Command` if it is a command. -/
theorem generateActions_action_invariant (e : etcdMembers) :
    ∀ a ∈ (generateActions e).2,
      (a.ActionType = "command" ∨ a.ActionType = "download") ∧
      (a.ActionType = "download" → a.Source ≠ "" ∧ a.Destination ≠ "") ∧
      (a.ActionType = "command" → a.Command ≠ "") := by
  intro a ha
  rw [generateActions_unfold, certificateLoopBody_eq, certificateLoopBody_eq,
    certificateLoopBody_eq] at ha
  simp only [List.mem_append, List.mem_cons, List.mem_singleton, List.not_mem_nil, or_false,
    Nat.reduceAdd, ne_eq, Nat.reduceEqDiff, not_false_eq_true, not_true_eq_false, if_true,
    if_false] at ha
  rcases ha with ha | ha
  · split at ha
    · simp only [List.mem_singleton] at ha
      subst ha
      exact invariant_of_command _ rfl (by decide)
    · simp at ha
  · rcases ha with ha | ha
    · rcases ha with ha | ha | ha | ha <;> subst ha <;>
        exact invariant_of_command _ rfl (append_ne_empty _ _ (by decide))
    · rcases ha with ha | ha | ha
      · rcases ha with (ha | ha | ha | ha | ha) | (ha | ha) <;> subst ha <;>
          first
          | exact invariant_of_command _ rfl (by decide)
          | exact invariant_of_command _ rfl (append_ne_empty _ _ (by decide))
          | exact invariant_of_download _ rfl (append_ne_empty _ _ (by decide))
              (append_ne_empty _ _ (by decide))
      · rcases ha with (ha | ha | ha | ha | ha) | (ha | ha) <;> subst ha <;>
          first
          | exact invariant_of_command _ rfl (by decide)
          | exact invariant_of_command _ rfl (append_ne_empty _ _ (by decide))
          | exact invariant_of_download _ rfl (append_ne_empty _ _ (by decide))
              (append_ne_empty _ _ (by decide))
      · rcases ha with ha | ha | ha | ha | ha <;> subst ha <;>
          first
          | exact invariant_of_command _ rfl (by decide)
          | exact invariant_of_command _ rfl (append_ne_empty _ _ (by decide))

/-- Witness of C15 on the topology whose hostnames and addresses are all
empty: the download action for the empty address. -/
theorem generateActions_action_invariant_witness :
    downloadForEmptyAddress ∈ (generateActions {}).2 ∧
    (downloadForEmptyAddress.Source ≠ "" ∧ downloadForEmptyAddress.Destination ≠ "") :=
  ⟨by decide, (generateActions_action_invariant {} downloadForEmptyAddress (by decide)).2.1 rfl⟩

/-- C16: the default of the API version is set by `generateActions`, which
returns the same list for the empty version as for `v1beta1`; `buildKubeadm`
with an empty `api` sets no default, its text starts with the header
`apiVersion: "kubeadm.k8s.io/"` of an empty version and differs from the text
for `v1beta1`. -/
theorem generateActions_defaults_api_version (e : etcdMembers) (host address : String) :
    (generateActions { e with APIVersion := "" }).2
      = (generateActions { e with APIVersion := "v1beta1" }).2 ∧
    (∃ rest, buildKubeadm e "" host address
      = "apiVersion: \"kubeadm.k8s.io/\"\nkind: ClusterConfiguration\n" ++ rest) ∧
    buildKubeadm e "" host address ≠ buildKubeadm e "v1beta1" host address := by
  refine ⟨?_, ?_, ?_⟩
  · rw [generateActions_unfold, generateActions_unfold]
    have hne : ¬ ("v1beta1" = "") := by decide
    simp only [if_true, if_neg hne]
    rfl
  · have h : buildKubeadm e "" host address = buildKubeadm e "" host address := rfl
    conv at h => rhs; simp only [buildKubeadm, String.append_empty, String.append_assoc]
    have hlit : "apiVersion: \"kubeadm.k8s.io/" ++ "\"\n" ++ "kind: ClusterConfiguration\n"
        = "apiVersion: \"kubeadm.k8s.io/\"\nkind: ClusterConfiguration\n" := by decide
    rw [← String.append_assoc, ← String.append_assoc, hlit] at h
    exact ⟨_, h⟩
  · intro h
    have hlen := congrArg String.length h
    simp only [buildKubeadm, String.length_append] at hlen
    have h0 : ("" : String).length = 0 := rfl
    have h7 : ("v1beta1" : String).length = 7 := rfl
    omega

/-- C17: for every `api`, `host`, `address` and topology, `buildKubeadm`
returns the sixteen lines of the template: the header with `api`, the target
address under `serverCertSANs` and under `peerCertSANs`, `initial-cluster`
with the three members in the order of their declaration, `name` with the
target host, and the four URLs with the target address and the ports 2380,
2379, 2379 and 2380. -/
theorem buildKubeadm_lines (e : etcdMembers) (api host address : String) :
    buildKubeadm e api host address = String.intercalate "\n"
      ["apiVersion: \"kubeadm.k8s.io/" ++ api ++ "\"",
       "kind: ClusterConfiguration",
       "etcd:",
       "    local:",
       "        serverCertSANs:",
       "        - \"" ++ address ++ "\"",
       "        peerCertSANs:",
       "        - \"" ++ address ++ "\"",
       "        extraArgs:",
       "            initial-cluster: " ++ e.Hostname1 ++ "=https://" ++ e.Address1 ++ ":2380,"
         ++ e.Hostname2 ++ "=https://" ++ e.Address2 ++ ":2380,"
         ++ e.Hostname3 ++ "=https://" ++ e.Address3 ++ ":2380",
       "            initial-cluster-state: new",
       "            name: " ++ host,
       "            listen-peer-urls: https://" ++ address ++ ":2380",
       "            listen-client-urls: https://" ++ address ++ ":2379",
       "            advertise-client-urls: https://" ++ address ++ ":2379",
       "            initial-advertise-peer-urls: https://" ++ address ++ ":2380"] := by
  have l0 : "\"\n" = "\"" ++ "\n" := by decide
  have l1 : "kind: ClusterConfiguration\n" = "kind: ClusterConfiguration" ++ "\n" := by decide
  have l2 : "etcd:\n" = "etcd:" ++ "\n" := by decide
  have l3 : "    local:\n" = "    local:" ++ "\n" := by decide
  have l4 : "        serverCertSANs:\n" = "        serverCertSANs:" ++ "\n" := by decide
  have l5 : "        peerCertSANs:\n" = "        peerCertSANs:" ++ "\n" := by decide
  have l6 : "        extraArgs:\n" = "        extraArgs:" ++ "\n" := by decide
  have l7 : ":2380\n" = ":2380" ++ "\n" := by decide
  have l8 : "            initial-cluster-state: new\n" = "            initial-cluster-state: new" ++ "\n" := by decide
  have l9 : ":2379\n" = ":2379" ++ "\n" := by decide
  simp only [buildKubeadm, String.intercalate, String.intercalate.go, l0, l1, l2, l3, l4, l5, l6, l7, l8, l9,
    String.append_assoc, String.append_empty]

/-- C18: in the plan, with `k` the number of actions before the mkdir action,
the config-write actions for the addresses 1, 2 and 3 are at the positions
`k+1`, `k+2`, `k+3` and redirect `buildKubeadm` for the hostname declared
with the address to `/tmp/<address>/kubeadmcfg.yaml`; the four certificate
commands for address 3 are at `k+5..k+8`, for address 2 at `k+12..k+15` and
for address 1 at `k+19..k+22`, after the config-write actions, and each
passes `--config=` with exactly that path. -/
theorem generateActions_certificates_use_written_config (e : etcdMembers) :
    let k := if e.InitCA = true then 1 else 0
    let version := if e.APIVersion = "" then "v1beta1" else e.APIVersion
    let path := fun (v : String) => "/tmp/" ++ v ++ "/kubeadmcfg.yaml"
    let commands := (generateActions e).2.map Action.Command
    commands[k + 1]? = some ("echo '" ++ buildKubeadm e version e.Hostname1 e.Address1
      ++ "' > " ++ path e.Address1) ∧
    commands[k + 2]? = some ("echo '" ++ buildKubeadm e version e.Hostname2 e.Address2
      ++ "' > " ++ path e.Address2) ∧
    commands[k + 3]? = some ("echo '" ++ buildKubeadm e version e.Hostname3 e.Address3
      ++ "' > " ++ path e.Address3) ∧
    commands[k + 5]? = some ("kubeadm init phase certs etcd-server --config=" ++ path e.Address3) ∧
    commands[k + 6]? = some ("kubeadm init phase certs etcd-peer --config=" ++ path e.Address3) ∧
    commands[k + 7]? = some ("kubeadm init phase certs etcd-healthcheck-client --config=" ++ path e.Address3) ∧
    commands[k + 8]? = some ("kubeadm init phase certs apiserver-etcd-client --config=" ++ path e.Address3) ∧
    commands[k + 12]? = some ("kubeadm init phase certs etcd-server --config=" ++ path e.Address2) ∧
    commands[k + 13]? = some ("kubeadm init phase certs etcd-peer --config=" ++ path e.Address2) ∧
    commands[k + 14]? = some ("kubeadm init phase certs etcd-healthcheck-client --config=" ++ path e.Address2) ∧
    commands[k + 15]? = some ("kubeadm init phase certs apiserver-etcd-client --config=" ++ path e.Address2) ∧
    commands[k + 19]? = some ("kubeadm init phase certs etcd-server --config=" ++ path e.Address1) ∧
    commands[k + 20]? = some ("kubeadm init phase certs etcd-peer --config=" ++ path e.Address1) ∧
    commands[k + 21]? = some ("kubeadm init phase certs etcd-healthcheck-client --config=" ++ path e.Address1) ∧
    commands[k + 22]? = some ("kubeadm init phase certs apiserver-etcd-client --config=" ++ path e.Address1) := by
  intro k version path commands
  have w : "' > /tmp/" = "' > " ++ "/tmp/" := by decide
  have c0 : "kubeadm init phase certs etcd-server --config=/tmp/" = "kubeadm init phase certs etcd-server --config=" ++ "/tmp/" := by decide
  have c1 : "kubeadm init phase certs etcd-peer --config=/tmp/" = "kubeadm init phase certs etcd-peer --config=" ++ "/tmp/" := by decide
  have c2 : "kubeadm init phase certs etcd-healthcheck-client --config=/tmp/" = "kubeadm init phase certs etcd-healthcheck-client --config=" ++ "/tmp/" := by decide
  have c3 : "kubeadm init phase certs apiserver-etcd-client --config=/tmp/" = "kubeadm init phase certs apiserver-etcd-client --config=" ++ "/tmp/" := by decide
  have hplan := generateActions_unfold e
  rw [certificateLoopBody_eq, certificateLoopBody_eq, certificateLoopBody_eq] at hplan
  cases hca : e.InitCA <;>
    simp [commands, path, k, version, hplan, hca, String.append_assoc] <;>
    simp only [w, c0, c1, c2, c3, String.append_assoc, and_self]

/-- The certificate loop appends the actions of its iterations, each with the
index of its element. -/
theorem certificateLoop_eq_flatMap (len : Nat) (l : List String) :
    ∀ i : Nat, certificateLoop len i l
      = (List.enumFrom i l).flatMap (fun iv => certificateLoopBody len iv.1 iv.2) := by
  induction l with
  | nil => intro i; rfl
  | cons v rest ih =>
    intro i
    rw [certificateLoop, List.enumFrom_cons, List.flatMap_cons, ih (i + 1)]

/-- One iteration appends five actions, and two more when its index is not
the last one. -/
theorem certificateLoopBody_length (len i : Nat) (v : String) :
    (certificateLoopBody len i v).length = if i + 1 ≠ len then 7 else 5 := by
  rw [certificateLoopBody_eq]
  split <;> rfl

/-- The number of actions the loop appends on the last `l.length` elements of
a slice of length `len`. -/
theorem certificateLoop_length (len : Nat) (l : List String) :
    ∀ i : Nat, i + l.length = len →
      (certificateLoop len i l).length = if l.length = 0 then 0 else 7 * l.length - 2 := by
  induction l with
  | nil => intro i _; rfl
  | cons v rest ih =>
    intro i hi
    simp only [List.length_cons] at hi
    have hrest := ih (i + 1) (by omega)
    rw [certificateLoop, List.length_append, certificateLoopBody_length, hrest]
    simp only [List.length_cons]
    by_cases h0 : rest.length = 0
    · have hlast : i + 1 = len := by omega
      simp [h0, hlast]
    · have hnot : i + 1 ≠ len := by omega
      simp only [h0, hnot, ne_eq, not_false_eq_true, if_true, if_false]
      have hpos : rest.length + 1 ≠ 0 := by omega
      rw [if_neg hpos]
      omega

/-- C19: for a slice of `n` hosts `generateCertificateActions` returns no
action when `n = 0` and `7n - 2` actions otherwise. The element at index `i`
contributes the cleanup and the four certificate commands, followed, exactly
when `i` is not `n - 1`, by the archive to `/tmp/<host>.tar.gz` and the
download whose `Source` and `Destination` are that path. The test is on the
index, so repeated addresses change nothing. -/
theorem generateCertificateActions_shape (e : etcdMembers) (hosts : List String) :
    let cert := fun (command name : String) =>
      ({ ActionType := "command", CommandSudo := "root", Command := command, Name := name } : Action)
    let five := fun (v : String) =>
      [cert "find /etc/kubernetes/pki -not -name ca.crt -not -name ca.key -type f -delete"
         "Remove any existing certificates before attempting to generate any new ones",
       cert ("kubeadm init phase certs etcd-server --config=/tmp/" ++ v ++ "/kubeadmcfg.yaml")
         ("Generate etcd server certificate for [" ++ v ++ "]"),
       cert ("kubeadm init phase certs etcd-peer --config=/tmp/" ++ v ++ "/kubeadmcfg.yaml")
         ("Generate peer certificate for [" ++ v ++ "]"),
       cert ("kubeadm init phase certs etcd-healthcheck-client --config=/tmp/" ++ v ++ "/kubeadmcfg.yaml")
         ("Generate health check certificate for [" ++ v ++ "]"),
       cert ("kubeadm init phase certs apiserver-etcd-client --config=/tmp/" ++ v ++ "/kubeadmcfg.yaml")
         ("Generate api-server client certificate for [" ++ v ++ "]")]
    let tar := fun (v : String) =>
      "tar -cvzf /tmp/" ++ v ++ ".tar.gz $(find /etc/kubernetes/pki -not -name ca.crt -not -name ca.key -type f) /tmp/" ++ v ++ "/kubeadmcfg.yaml"
    let bundle := fun (v : String) =>
      [cert (tar v) ("Archive generated certificates [" ++ v ++ "]"),
       ({ ActionType := "download", CommandSudo := "root", Command := tar v,
          Source := "/tmp/" ++ v ++ ".tar.gz", Destination := "/tmp/" ++ v ++ ".tar.gz",
          Name := "Retrieve the certificate bundle for [" ++ v ++ "]" } : Action)]
    (generateCertificateActions e hosts).length
      = (if hosts.length = 0 then 0 else 7 * hosts.length - 2) ∧
    generateCertificateActions e hosts
      = hosts.enum.flatMap (fun iv =>
          five iv.2 ++ (if iv.1 + 1 ≠ hosts.length then bundle iv.2 else [])) := by
  intro cert five tar bundle
  refine ⟨?_, ?_⟩
  · exact certificateLoop_length hosts.length hosts 0 (by omega)
  · rw [generateCertificateActions, certificateLoop_eq_flatMap]
    have hbody : (fun (iv : Nat × String) => certificateLoopBody hosts.length iv.1 iv.2)
        = (fun iv => five iv.2 ++ (if iv.1 + 1 ≠ hosts.length then bundle iv.2 else [])) := by
      funext iv
      rw [certificateLoopBody_eq]
    rw [hbody]
    rfl

/-! ## Lemmas: one publication -/

/-- A publication with an empty text does nothing. -/
theorem publish_empty (s : ServerState) (path content : String) :
    publish s "" path content = .ok s := by
  simp [publish]

/-- A publication with a non-empty text under a path that is not registered
registers the path and stores the content. -/
theorem publish_fresh (s : ServerState) (text path content : String)
    (ht : text ≠ "") (hp : path ≠ "") (hf : path ∉ s.handlers) :
    publish s text path content = .ok
      { s with handlers := s.handlers ++ [path],
               httpPaths := fun p => if p = path then some content else s.httpPaths p } := by
  simp [publish, HandleFunc, ht, hp, hf]

/-- A publication with a non-empty text under a path that is registered
already panics in `http.HandleFunc`, before the content is stored. -/
theorem publish_registered (s : ServerState) (text path content : String)
    (ht : text ≠ "") (hp : path ≠ "") (hr : path ∈ s.handlers) :
    publish s text path content = .error ("http: multiple registrations for " ++ path) := by
  simp [publish, HandleFunc, ht, hp, hr]

/-- Strings that continue the same string differently differ. -/
theorem append_left_ne (s t u : String) (h : t ≠ u) : s ++ t ≠ s ++ u := by
  intro hst
  have hdata := congrArg String.data hst
  rw [String.data_append, String.data_append] at hdata
  exact h (String.ext (List.append_cancel_left hdata))

/-- The three publications of an entry none of whose paths is registered: no
registration panics; the `.ipxe` path holds the boot-loader script and the
`.cfg` path the installer text, when these are not empty; the `.ks` path
holds the installer text, and not the kickstart text, when the kickstart text
is not empty. A path whose text is empty keeps its content. -/
theorem publishEntry_fresh (s : ServerState) (mac a b k : String)
    (h1 : "/" ++ dashMac mac ++ ".ipxe" ∉ s.handlers)
    (h2 : "/" ++ dashMac mac ++ ".cfg" ∉ s.handlers)
    (h3 : "/" ++ dashMac mac ++ ".ks" ∉ s.handlers) :
    (publishEntry s mac a b k).2 = none ∧
    (publishEntry s mac a b k).1.httpPaths ("/" ++ dashMac mac ++ ".ipxe")
      = (if a = "" then s.httpPaths ("/" ++ dashMac mac ++ ".ipxe") else some a) ∧
    (publishEntry s mac a b k).1.httpPaths ("/" ++ dashMac mac ++ ".cfg")
      = (if b = "" then s.httpPaths ("/" ++ dashMac mac ++ ".cfg") else some b) ∧
    (publishEntry s mac a b k).1.httpPaths ("/" ++ dashMac mac ++ ".ks")
      = (if k = "" then s.httpPaths ("/" ++ dashMac mac ++ ".ks") else some b) := by
  have e1 : "/" ++ dashMac mac ++ ".ipxe" ≠ "" := append_ne_empty _ _ (by decide)
  have e2 : "/" ++ dashMac mac ++ ".cfg" ≠ "" := append_ne_empty _ _ (by decide)
  have e3 : "/" ++ dashMac mac ++ ".ks" ≠ "" := append_ne_empty _ _ (by decide)
  have n12 : "/" ++ dashMac mac ++ ".ipxe" ≠ "/" ++ dashMac mac ++ ".cfg" :=
    append_left_ne _ _ _ (by decide)
  have n13 : "/" ++ dashMac mac ++ ".ipxe" ≠ "/" ++ dashMac mac ++ ".ks" :=
    append_left_ne _ _ _ (by decide)
  have n23 : "/" ++ dashMac mac ++ ".cfg" ≠ "/" ++ dashMac mac ++ ".ks" :=
    append_left_ne _ _ _ (by decide)
  by_cases ha : a = "" <;> by_cases hb : b = "" <;> by_cases hk : k = "" <;>
    simp [publishEntry, publish, HandleFunc, ha, hb, hk, h1, h2, h3, e1, e2, e3,
      n12, n13, n23, n12.symm, n13.symm, n23.symm]

/-! ## Lemmas: the artifacts of one entry -/

theorem renderEntry_preseed (x : Externals) (a : String) (bc : BootConfig)
    (c : DeploymentConfig) (h : c.ConfigName = "preseed") :
    renderEntry x a bc c
      = (x.IPXEPreeseed a bc.Kernel bc.Initrd bc.Cmdline, x.BuildPreeSeedConfig c.ConfigHost, "") := by
  simp [renderEntry, h]

theorem renderEntry_kickstart (x : Externals) (a : String) (bc : BootConfig)
    (c : DeploymentConfig) (h : c.ConfigName = "kickstart") :
    renderEntry x a bc c
      = (x.IPXEKickstart a bc.Kernel bc.Initrd bc.Cmdline, x.BuildKickStartConfig c.ConfigHost, "") := by
  have hne : ¬ ("kickstart" = "preseed") := by decide
  simp [renderEntry, h, hne]

theorem renderEntry_vsphere (x : Externals) (a : String) (bc : BootConfig)
    (c : DeploymentConfig) (h : c.ConfigName = "vsphere") :
    renderEntry x a bc c
      = (x.IPXEVSphere a bc.Kernel bc.Cmdline, x.BuildESXiConfig c.ConfigHost,
          x.BuildESXiKickStart c.ConfigHost) := by
  have h1 : ¬ ("vsphere" = "preseed") := by decide
  have h2 : ¬ ("vsphere" = "kickstart") := by decide
  simp [renderEntry, h, h1, h2]

theorem renderEntry_other (x : Externals) (a : String) (bc : BootConfig)
    (c : DeploymentConfig) (h1 : c.ConfigName ≠ "preseed") (h2 : c.ConfigName ≠ "kickstart")
    (h3 : c.ConfigName ≠ "vsphere") :
    renderEntry x a bc c = (x.IPXEAnyBoot a bc.Kernel bc.Initrd bc.Cmdline, "", "") := by
  simp [renderEntry, h1, h2, h3]

/-- The loop body on an entry that resolves and none of whose paths is
registered: the iteration ends with the resolved entry, and the three paths
hold what `publishEntry_fresh` says of the three texts of the entry. -/
theorem updateEntry_fresh (x : Externals) (g : HostConfig) (s : ServerState)
    (c : DeploymentConfig) (bc : BootConfig)
    (hf : x.findBootConfigForDeployment c = some bc)
    (h1 : "/" ++ dashMac c.MAC ++ ".ipxe" ∉ s.handlers)
    (h2 : "/" ++ dashMac c.MAC ++ ".cfg" ∉ s.handlers)
    (h3 : "/" ++ dashMac c.MAC ++ ".ks" ∉ s.handlers) :
    (updateEntry x g s c).2 = .ok (resolvedEntry g c bc) ∧
    (updateEntry x g s c).1.httpPaths ("/" ++ dashMac c.MAC ++ ".ipxe")
      = (if (renderEntry x s.httpAddress bc (resolvedEntry g c bc)).1 = ""
          then s.httpPaths ("/" ++ dashMac c.MAC ++ ".ipxe")
          else some (renderEntry x s.httpAddress bc (resolvedEntry g c bc)).1) ∧
    (updateEntry x g s c).1.httpPaths ("/" ++ dashMac c.MAC ++ ".cfg")
      = (if (renderEntry x s.httpAddress bc (resolvedEntry g c bc)).2.1 = ""
          then s.httpPaths ("/" ++ dashMac c.MAC ++ ".cfg")
          else some (renderEntry x s.httpAddress bc (resolvedEntry g c bc)).2.1) ∧
    (updateEntry x g s c).1.httpPaths ("/" ++ dashMac c.MAC ++ ".ks")
      = (if (renderEntry x s.httpAddress bc (resolvedEntry g c bc)).2.2 = ""
          then s.httpPaths ("/" ++ dashMac c.MAC ++ ".ks")
          else some (renderEntry x s.httpAddress bc (resolvedEntry g c bc)).2.1) := by
  have key := publishEntry_fresh s c.MAC
    (renderEntry x s.httpAddress bc (resolvedEntry g c bc)).1
    (renderEntry x s.httpAddress bc (resolvedEntry g c bc)).2.1
    (renderEntry x s.httpAddress bc (resolvedEntry g c bc)).2.2 h1 h2 h3
  simp only [updateEntry, hf]
  simp only [resolvedEntry] at key ⊢
  cases hp : publishEntry s c.MAC
      (renderEntry x s.httpAddress bc
        { MAC := c.MAC, ConfigName := c.ConfigName, ConfigBoot := bc,
          ConfigHost := PopulateConfiguration c.ConfigHost g }).1
      (renderEntry x s.httpAddress bc
        { MAC := c.MAC, ConfigName := c.ConfigName, ConfigBoot := bc,
          ConfigHost := PopulateConfiguration c.ConfigHost g }).2.1
      (renderEntry x s.httpAddress bc
        { MAC := c.MAC, ConfigName := c.ConfigName, ConfigBoot := bc,
          ConfigHost := PopulateConfiguration c.ConfigHost g }).2.2 with
  | mk s1 r =>
    rw [hp] at key
    obtain ⟨k0, k1, k2, k3⟩ := key
    dsimp only at k0
    subst k0
    exact ⟨rfl, k1, k2, k3⟩

/-! ## Theorems: the published artifacts -/

/-- C11: the `.ks` path of a `vsphere` entry does not hold the kickstart
text. On the initial state the update with the entry
`aa:bb:cc:dd:ee:ff`/`vsphere` returns `nil`, the `.ipxe` path holds the
vSphere boot-loader script and the `.cfg` path the text of `BuildESXiConfig`,
and the `.ks` path holds the text of `BuildESXiConfig` again, not the text of
`BuildESXiKickStart`. -/
theorem UpdateControllerConfig_vsphere_ks_holds_config :
    (UpdateControllerConfig (sampleExternals { Configs := [entryVsphere] }) {} ByteArray.empty).2
      = .returned none ∧
    (UpdateControllerConfig (sampleExternals { Configs := [entryVsphere] }) {}
      ByteArray.empty).1.httpPaths "/aa-bb-cc-dd-ee-ff.ipxe" = some "vsphere mb" ∧
    (UpdateControllerConfig (sampleExternals { Configs := [entryVsphere] }) {}
      ByteArray.empty).1.httpPaths "/aa-bb-cc-dd-ee-ff.cfg" = some "esxi " ∧
    (UpdateControllerConfig (sampleExternals { Configs := [entryVsphere] }) {}
      ByteArray.empty).1.httpPaths "/aa-bb-cc-dd-ee-ff.ks" = some "esxi " ∧
    (sampleExternals {}).BuildESXiConfig (PopulateConfiguration entryVsphere.ConfigHost {})
      = "esxi " ∧
    (sampleExternals {}).BuildESXiKickStart (PopulateConfiguration entryVsphere.ConfigHost {})
      = "esxiks " := by
  decide

/-- C12: a `preseed` entry for a MAC that was published before is not
published. After the update with `aa:bb:cc:dd:ee:ff`/`vsphere` has returned
`nil`, the update with the resolvable entry `aa:bb:cc:dd:ee:ff`/`preseed`
panics in `http.HandleFunc`; the `.ipxe` path still holds the vSphere script
and not the preseed script `preseed kic`, and the `.cfg` path still holds the
ESXi config and not the preseed text `d-i `. -/
theorem UpdateControllerConfig_preseed_after_vsphere_keeps_old :
    (UpdateControllerConfig (sampleExternals { Configs := [entryVsphere] }) {} ByteArray.empty).2
      = .returned none ∧
    (sampleExternals {}).findBootConfigForDeployment entryPreseed
      = some { ConfigName := "preseed", Kernel := "k", Initrd := "i", Cmdline := "c" } ∧
    (sampleExternals {}).IPXEPreeseed "" "k" "i" "c" = "preseed kic" ∧
    (sampleExternals {}).BuildPreeSeedConfig (PopulateConfiguration entryPreseed.ConfigHost {})
      = "d-i " ∧
    (UpdateControllerConfig (sampleExternals { Configs := [entryPreseed] })
      (UpdateControllerConfig (sampleExternals { Configs := [entryVsphere] }) {} ByteArray.empty).1
      ByteArray.empty).2
      = .panicked "http: multiple registrations for /aa-bb-cc-dd-ee-ff.ipxe" ∧
    (UpdateControllerConfig (sampleExternals { Configs := [entryPreseed] })
      (UpdateControllerConfig (sampleExternals { Configs := [entryVsphere] }) {} ByteArray.empty).1
      ByteArray.empty).1.httpPaths "/aa-bb-cc-dd-ee-ff.ipxe" = some "vsphere mb" ∧
    (UpdateControllerConfig (sampleExternals { Configs := [entryPreseed] })
      (UpdateControllerConfig (sampleExternals { Configs := [entryVsphere] }) {} ByteArray.empty).1
      ByteArray.empty).1.httpPaths "/aa-bb-cc-dd-ee-ff.cfg" = some "esxi " := by
  decide

/-- C13: an entry with an operator-defined config name makes the call fail
when its `.ipxe` path is registered already. The update with
`aa:bb:cc:dd:ee:ff`/`custom`, which resolves, returns `nil` on the initial
state and publishes the any-boot script only; the same update submitted again
panics in `http.HandleFunc`. -/
theorem UpdateControllerConfig_custom_name_resubmitted_panics :
    (sampleExternalsCustom {}).findBootConfigForDeployment entryCustom
      = some { ConfigName := "custom", Kernel := "k", Initrd := "i", Cmdline := "c" } ∧
    (UpdateControllerConfig (sampleExternalsCustom { Configs := [entryCustom] }) {}
      ByteArray.empty).2 = .returned none ∧
    (UpdateControllerConfig (sampleExternalsCustom { Configs := [entryCustom] }) {}
      ByteArray.empty).1.httpPaths "/aa-bb-cc-dd-ee-ff.ipxe" = some "anyboot kic" ∧
    (UpdateControllerConfig (sampleExternalsCustom { Configs := [entryCustom] }) {}
      ByteArray.empty).1.handlers = ["/aa-bb-cc-dd-ee-ff.ipxe"] ∧
    (UpdateControllerConfig (sampleExternalsCustom { Configs := [entryCustom] })
      (UpdateControllerConfig (sampleExternalsCustom { Configs := [entryCustom] }) {}
        ByteArray.empty).1
      ByteArray.empty).2
      = .panicked "http: multiple registrations for /aa-bb-cc-dd-ee-ff.ipxe" := by
  decide

/-- C14: a second publication for a MAC is not an overwrite. After the update
with `aa:bb:cc:dd:ee:ff`/`preseed` has returned `nil`, the update with
`aa:bb:cc:dd:ee:ff`/`vsphere` calls `http.HandleFunc` a second time for the
`.ipxe` path, which panics; the `.ipxe` and `.cfg` paths keep the content of
the first publication and the `.ks` path stays absent. The manifest that
lists the two entries one after the other panics in the same way on the
initial state. -/
theorem UpdateControllerConfig_republish_keeps_first_content :
    (UpdateControllerConfig (sampleExternals { Configs := [entryPreseed] }) {} ByteArray.empty).2
      = .returned none ∧
    (UpdateControllerConfig (sampleExternals { Configs := [entryPreseed] }) {}
      ByteArray.empty).1.handlers = ["/aa-bb-cc-dd-ee-ff.ipxe", "/aa-bb-cc-dd-ee-ff.cfg"] ∧
    (UpdateControllerConfig (sampleExternals { Configs := [entryVsphere] })
      (UpdateControllerConfig (sampleExternals { Configs := [entryPreseed] }) {} ByteArray.empty).1
      ByteArray.empty).2
      = .panicked "http: multiple registrations for /aa-bb-cc-dd-ee-ff.ipxe" ∧
    (UpdateControllerConfig (sampleExternals { Configs := [entryVsphere] })
      (UpdateControllerConfig (sampleExternals { Configs := [entryPreseed] }) {} ByteArray.empty).1
      ByteArray.empty).1.httpPaths "/aa-bb-cc-dd-ee-ff.ipxe" = some "preseed kic" ∧
    (UpdateControllerConfig (sampleExternals { Configs := [entryVsphere] })
      (UpdateControllerConfig (sampleExternals { Configs := [entryPreseed] }) {} ByteArray.empty).1
      ByteArray.empty).1.httpPaths "/aa-bb-cc-dd-ee-ff.cfg" = some "d-i " ∧
    (UpdateControllerConfig (sampleExternals { Configs := [entryVsphere] })
      (UpdateControllerConfig (sampleExternals { Configs := [entryPreseed] }) {} ByteArray.empty).1
      ByteArray.empty).1.httpPaths "/aa-bb-cc-dd-ee-ff.ks" = none ∧
    (sampleExternals {}).IPXEVSphere "" "m" "b" = "vsphere mb" ∧
    (UpdateControllerConfig (sampleExternals { Configs := [entryPreseed, entryVsphere] }) {}
      ByteArray.empty).2
      = .panicked "http: multiple registrations for /aa-bb-cc-dd-ee-ff.ipxe" ∧
    (UpdateControllerConfig (sampleExternals { Configs := [entryPreseed, entryVsphere] }) {}
      ByteArray.empty).1.httpPaths "/aa-bb-cc-dd-ee-ff.ipxe" = some "preseed kic" := by
  decide

/-! ## Theorems: inheritance from the global profile, continued -/

/-- Two host profiles with the same ten fields are equal. -/
theorem HostConfig_eq_of_fields (a b : HostConfig)
    (h0 : a.Gateway = b.Gateway)
    (h1 : a.Subnet = b.Subnet)
    (h2 : a.NameServer = b.NameServer)
    (h3 : a.Adapter = b.Adapter)
    (h4 : a.RepositoryAddress = b.RepositoryAddress)
    (h5 : a.MirrorDirectory = b.MirrorDirectory)
    (h6 : a.Username = b.Username)
    (h7 : a.Password = b.Password)
    (h8 : a.SSHKeyPath = b.SSHKeyPath)
    (h9 : a.Packages = b.Packages) : a = b := by
  cases a
  cases b
  simp_all

/-- The receiver after `PopulateConfiguration`, field by field. -/
theorem PopulateConfiguration_eq (h g : HostConfig) :
    PopulateConfiguration h g =
      { Gateway := if h.Gateway = "" then g.Gateway else h.Gateway,
        Subnet := if h.Subnet = "" then g.Subnet else h.Subnet,
        NameServer := if h.NameServer = "" then g.NameServer else h.NameServer,
        Adapter := if h.Adapter = "" then g.Adapter else h.Adapter,
        RepositoryAddress := if h.RepositoryAddress = "" then g.RepositoryAddress else h.RepositoryAddress,
        MirrorDirectory := if h.MirrorDirectory = "" then g.MirrorDirectory else h.MirrorDirectory,
        Username := if h.Username = "" then g.Username else h.Username,
        Password := if h.Password = "" then g.Password else h.Password,
        SSHKeyPath := if h.SSHKeyPath = "" then g.SSHKeyPath else h.SSHKeyPath,
        Packages := if h.Packages = "" then g.Packages else h.Packages } := by
  apply HostConfig_eq_of_fields <;>
    simp only [PopulateConfiguration, apply_ite HostConfig.Gateway, apply_ite HostConfig.Subnet, apply_ite HostConfig.NameServer, apply_ite HostConfig.Adapter, apply_ite HostConfig.RepositoryAddress,
      apply_ite HostConfig.MirrorDirectory, apply_ite HostConfig.Username, apply_ite HostConfig.Password, apply_ite HostConfig.SSHKeyPath, apply_ite HostConfig.Packages,
      ite_self]

/-- C21: `PopulateConfiguration` is idempotent, populating the result of
`h.PopulateConfiguration(g)` with `g` again changes nothing, and a global
profile whose every field is empty leaves `h` unchanged. -/
theorem PopulateConfiguration_idempotent_and_empty_identity (h g : HostConfig) :
    PopulateConfiguration (PopulateConfiguration h g) g = PopulateConfiguration h g ∧
    PopulateConfiguration h {} = h := by
  refine ⟨?_, ?_⟩
  · rw [PopulateConfiguration_eq h g, PopulateConfiguration_eq]
    apply HostConfig_eq_of_fields <;> dsimp only <;> split <;> simp_all
  · rw [PopulateConfiguration_eq]
    apply HostConfig_eq_of_fields <;> dsimp only <;> split <;> simp_all

end Plunder
